import Mathlib

/-
  Verification development for the zpebop package.

  Shallow embedding conventions:
  * NumPy float64 values are modelled as exact numbers: table entries, bond
    orders, distances and masses are rationals (every parsed decimal literal
    is an exact rational); energies that involve `exp` or `sqrt` live in `ℝ`.
  * A NaN table entry is `none`; `np.nan_to_num(_, nan := 0)` becomes the
    `Option.elim`-style match returning 0 for `none`.
  * In-place `+=` accumulation over loops of commuting additions is modelled
    as a finite sum over the loop index set.
  * Real division in the embedding is Lean's total division (x / 0 = 0); the
    place where the Python code can divide by zero is tracked separately by
    the predicate `performsZeroDivision`.
-/

namespace Zpebop

/-- Parameter table `BETA_V1_BOND` from constants.py; `none` models a NaN (undefined) entry. -/
def BETA_V1_BOND : List (List (Option ℚ)) := [
  [some 7.887796, none, some 2.673191, some 5.151854, some 6.024092, some 6.777104, some 8.333327, some 10.604912, some 13.673434, none, some 4.969876, some 5.515809, some 5.572285, some 6.055468, some 7.354413, some 8.101149, some 8.433729, none],
  [none, none, none, none, none, none, none, none, none, none, none, none, none, none, none, none, none, none],
  [some 2.673191, none, some 0.702811, some 0.834588, some 1.073041, some 1.587599, some 1.361696, some 0.646335, some 3.281875, none, some 10.328808, some 1.907629, some 0.746736, some 0.809487, some 1.211094, some 1.129517, some 2.321786, none],
  [some 5.151854, none, some 0.834588, some 1.568774, some 1.430722, some 2.961845, some 2.855169, some 1.393071, some 3.783883, none, some 4.681222, some 1.713101, some 1.411897, some 1.223644, some 1.474648, some 1.581324, some 2.748492, none],
  [some 6.024092, none, some 1.073041, some 1.430722, some 2.371986, some 2.497488, some 1.656625, some 0.878513, some 4.059987, none, some 2.855169, some 1.939005, some 1.386796, some 1.738202, some 0.627510, some 1.895079, some 2.371986, none],
  [some 6.777104, none, some 1.587599, some 2.961845, some 2.497488, some 2.510038, some 2.340611, some 2.974396, some 4.066262, none, some 1.706826, some 5.352657, some 2.604165, some 1.731926, some 0.119227, some 2.089607, some 2.371986, none],
  [some 8.333327, none, some 1.361696, some 2.855169, some 1.656625, some 2.340611, some 2.516313, some 4.505519, some 5.710337, none, some 2.045681, some 1.531123, some 1.424447, some 1.123242, some 0.621235, some 2.346886, some 3.350901, none],
  [some 10.604912, none, some 0.646335, some 1.393071, some 0.878513, some 2.974396, some 4.505519, some 4.028612, some 4.900850, none, some 0.131777, some 1.236194, some 1.939005, some 1.688001, some 1.945280, some 2.171183, some 1.876254, none],
  [some 13.673434, none, some 3.281875, some 3.783883, some 4.059987, some 4.066262, some 5.710337, some 4.900850, some 5.992717, none, some 1.568774, some 2.026856, some 2.704566, some 2.748492, some 3.018321, some 2.830068, some 4.405117, none],
  [none, none, none, none, none, none, none, none, none, none, none, none, none, none, none, none, none, none],
  [some 4.969876, none, some 10.328808, some 4.681222, some 2.855169, some 1.706826, some 2.045681, some 0.131777, some 1.568774, none, some 1.449547, some 1.167168, some 1.474648, some 1.110692, some 0.928714, some 0.734186, some 1.223644, none],
  [some 5.515809, none, some 1.907629, some 1.713101, some 1.939005, some 5.352657, some 1.531123, some 1.236194, some 2.026856, none, some 1.167168, some 0.627510, some 1.556224, some 1.443272, some 1.211094, some 1.104417, some 1.073041, none],
  [some 5.572285, none, some 0.746736, some 1.411897, some 1.386796, some 2.604165, some 1.424447, some 1.939005, some 2.704566, none, some 1.474648, some 1.556224, some 1.223644, some 1.066766, some 1.179718, some 1.506023, some 2.039406, none],
  [some 6.055468, none, some 0.809487, some 1.223644, some 1.738202, some 1.731926, some 1.123242, some 1.688001, some 2.748492, none, some 1.110692, some 1.443272, some 1.066766, some 1.179718, some 0.960090, some 1.148343, some 1.920179, none],
  [some 7.354413, none, some 1.211094, some 1.474648, some 0.627510, some 0.119227, some 0.621235, some 1.945280, some 3.018321, none, some 0.928714, some 1.211094, some 1.179718, some 0.960090, some 1.430722, some 1.255019, some 1.913904, none],
  [some 8.101149, none, some 1.129517, some 1.581324, some 1.895079, some 2.089607, some 2.346886, some 2.171183, some 2.830068, none, some 0.734186, some 1.104417, some 1.506023, some 1.148343, some 1.255019, some 1.738202, some 2.127258, none],
  [some 8.433729, none, some 2.321786, some 2.748492, some 2.371986, some 2.371986, some 3.350901, some 1.876254, some 4.405117, none, some 1.223644, some 1.073041, some 2.039406, some 1.920179, some 1.913904, some 2.127258, some 2.208834, none],
  [none, none, none, none, none, none, none, none, none, none, none, none, none, none, none, none, none, none]
]

/-- Parameter table `BETA_V1_ANTI` from constants.py; `none` models a NaN (undefined) entry. -/
def BETA_V1_ANTI : List (List (Option ℚ)) := [
  [some 26.267552, none, some 4.681222, some 12.506266, some 25.602392, some 20.588590, some 28.131255, some 52.779832, some 34.607154, none, some 0.000000, some 2.510038, some 27.773575, some 23.086078, some 45.701524, some 31.457056, some 24.284622, none],
  [none, none, none, none, none, none, none, none, none, none, none, none, none, none, none, none, none, none],
  [some 4.681222, none, some 4.216865, some 2.572789, some 5.704062, some 0.000000, some 0.000000, some 8.847885, none, none, none, none, none, some 19.885779, none, none, none, none],
  [some 12.506266, none, some 2.572789, some 1.386796, some 3.407377, some 0.000000, some 0.000000, some 0.000000, some 5.478159, none, none, none, none, some 7.881521, some 0.571034, some 0.000000, some 0.150602, none],
  [some 25.602392, none, some 5.704062, some 3.407377, some 10.297433, some 0.000000, some (-21.887535), some 39.708807, some 11.188496, none, none, some 0.307480, none, some (-0.527108), some 0.000000, some 9.236941, some 2.528864, none],
  [some 20.588590, none, some 0.000000, some 0.000000, some 0.000000, some 4.229415, some 6.036642, some 7.034383, some 11.703054, none, some 0.000000, some 0.000000, some 0.000000, some 6.168419, some 1.255019, some 8.107424, some 4.373742, none],
  [some 28.131255, none, some 0.000000, some 0.000000, some (-21.887535), some 6.036642, some 20.488188, some 5.258530, some 13.554207, none, none, some 1.556224, some 0.000000, some 15.838342, some 46.059205, some 23.625736, some 0.000000, none],
  [some 52.779832, none, some 8.847885, some 0.000000, some 39.708807, some 7.034383, some 5.258530, some 15.794417, some 22.653097, none, none, none, none, some 0.000000, some 10.240957, some 13.384780, some 12.958073, none],
  [some 34.607154, none, none, some 5.478159, some 11.188496, some 11.703054, some 13.554207, some 22.653097, some 16.296424, none, none, none, none, some 7.856420, some 0.000000, some 15.279859, some 1.650350, none],
  [none, none, none, none, none, none, none, none, none, none, none, none, none, none, none, none, none, none],
  [some 0.000000, none, none, none, none, some 0.000000, none, none, none, none, some 0.000000, some 3.357176, none, none, none, none, none, none],
  [some 2.510038, none, none, none, some 0.307480, some 0.000000, some 1.556224, none, none, none, some 3.357176, none, none, none, some 0.614959, none, none, none],
  [some 27.773575, none, none, none, none, some 0.000000, some 0.000000, none, none, none, none, none, some 0.689006, none, none, some 0.000000, none, none],
  [some 23.086078, none, some 19.885779, some 7.881521, some (-0.527108), some 6.168419, some 15.838342, some 0.000000, some 7.856420, none, none, none, none, some 0.533383, some 6.237445, some 6.933981, some 14.853152, none],
  [some 45.701524, none, none, some 0.571034, some 0.000000, some 1.255019, some 46.059205, some 10.240957, some 0.000000, none, none, some 0.614959, none, some 6.237445, some 21.128248, some 11.113195, some 5.678962, none],
  [some 31.457056, none, none, some 0.000000, some 9.236941, some 8.107424, some 23.625736, some 13.384780, some 15.279859, none, none, none, some 0.000000, some 6.933981, some 11.113195, some 12.782371, some 0.000000, none],
  [some 24.284622, none, none, some 0.150602, some 2.528864, some 4.373742, some 0.000000, some 12.958073, some 1.650350, none, none, none, none, some 14.853152, some 5.678962, some 0.000000, some 3.081072, none],
  [none, none, none, none, none, none, none, none, none, none, none, none, none, none, none, none, none, none]
]

/-- Parameter table `BETA_BOND` from constants.py; `none` models a NaN (undefined) entry. -/
def BETA_BOND : List (List (Option ℚ)) := [
  [some 7.85752443462511, none, some 2.64643153802927, some 4.99851472511061, some 11.562020311103, some 6.63831874335757, some 8.15201199094122, some 10.7892439321813, some 13.4601465149703, none, some 4.5347132160903, none, none, none, none, none, some 7.93033870668636, none],
  [none, none, none, none, none, none, none, none, none, none, none, none, none, none, none, none, none, none],
  [some 2.64643153802927, none, some 0.690489207627185, some 1.82521188836532, some 2.17858304224393, some 5.13848977491812, some 13.2531166741975, some 3.16566446811649, some 3.69641601424705, none, some 7.34448369614239, none, none, none, none, none, some 2.35730963561654, none],
  [some 4.99851472511061, none, some 1.82521188836532, some 1.61638200421122, some 2.28356516663285, some 1.34918691374378, some 4.32691669180403, some 52.1623490407304, some 15.4178757435101, none, none, none, none, none, none, none, none, none],
  [some 11.562020311103, none, some 2.17858304224393, some 2.28356516663285, some 18.9861037711278, some 13.1323521699709, some 5.58908111732033, some 19.6512402264327, some 7.06216684114365, none, none, none, none, none, none, none, none, none],
  [some 6.63831874335757, none, some 5.13848977491812, some 1.34918691374378, some 13.1323521699709, some 3.43251054167047, some 8.05691389667233, some 4.44217100714648, some 5.98485647124534, none, none, none, none, none, none, none, none, none],
  [some 8.15201199094122, none, some 13.2531166741975, some 4.32691669180403, some 5.58908111732033, some 8.05691389667233, some 26.9637243707608, some 10.0338957043055, some 13.9613810965585, none, none, none, none, none, none, none, none, none],
  [some 10.7892439321813, none, some 3.16566446811649, some 52.1623490407304, some 19.6512402264327, some 4.44217100714648, some 10.0338957043055, some 11.8580299536351, some 5.82727820591931, none, none, none, none, none, none, none, none, none],
  [some 13.4601465149703, none, some 3.69641601424705, some 15.4178757435101, some 7.06216684114365, some 5.98485647124534, some 13.9613810965585, some 5.82727820591931, some 5.91325290786045, none, some 1.67691795591411, none, none, none, none, none, some 6.49273582515203, none],
  [none, none, none, none, none, none, none, none, none, none, none, none, none, none, none, none, none, none],
  [some 4.5347132160903, none, some 7.34448369614239, none, none, none, none, none, some 1.67691795591411, none, some 0.601726456223389, none, none, none, none, none, some 1.21486964468664, none],
  [none, none, none, none, none, none, none, none, none, none, none, none, none, none, none, none, none, none],
  [none, none, none, none, none, none, none, none, none, none, none, none, none, none, none, none, none, none],
  [none, none, none, none, none, none, none, none, none, none, none, none, none, none, none, none, none, none],
  [none, none, none, none, none, none, none, none, none, none, none, none, none, none, none, none, none, none],
  [none, none, none, none, none, none, none, none, none, none, none, none, none, none, none, none, none, none],
  [some 7.93033870668636, none, some 2.35730963561654, none, none, none, none, none, some 6.49273582515203, none, some 1.21486964468664, none, none, none, none, none, some 1.94140588157533, none],
  [none, none, none, none, none, none, none, none, none, none, none, none, none, none, none, none, none, none]
]

/-- Parameter table `BETA_ANTI` from constants.py; `none` models a NaN (undefined) entry. -/
def BETA_ANTI : List (List (Option ℚ)) := [
  [some 27.6239633708124, none, some 0.999999997810276, some 16.9774700920608, some 13.4821331252169, some 17.4467954663834, some 0.969802075152177, some 37.8284323520572, some 28.4713995584883, none, some 1, none, none, none, none, none, some 1, none],
  [none, none, none, none, none, none, none, none, none, none, none, none, none, none, none, none, none, none],
  [some 0.999999997810276, none, some 44.6389044846528, some 1, some 1, some 1, some 1, some 1, some 1, none, some 1, none, none, none, none, none, some 1, none],
  [some 16.9774700920608, none, some 1, some 1, some 1, some 1, some 1, some 1, some 2.12224681521582e-10, none, none, none, none, none, none, none, none, none],
  [some 13.4821331252169, none, some 1, some 1, some 5.65704676687039e-11, some 1, some 43.8006785504842, some 7.58565355874175, some 1, none, none, none, none, none, none, none, none, none],
  [some 17.4467954663834, none, some 1, some 1, some 1, some 3.56147513551353, some 2.2768635658249e-12, some 26.390509335597, some 0.121365255672463, none, none, none, none, none, none, none, none, none],
  [some 0.969802075152177, none, some 1, some 1, some 43.8006785504842, some 2.2768635658249e-12, some 34.4574083798843, some 5.62322055961136e-11, some 1, none, none, none, none, none, none, none, none, none],
  [some 37.8284323520572, none, some 1, some 1, some 7.58565355874175, some 26.390509335597, some 5.62322055961136e-11, some 55.6829793836954, some 35.6425218833668, none, none, none, none, none, none, none, none, none],
  [some 28.4713995584883, none, some 1, some 2.12224681521582e-10, some 1, some 0.121365255672463, some 1, some 35.6425218833668, some 5.72558871532628, none, some 1, none, none, none, none, none, some 1, none],
  [none, none, none, none, none, none, none, none, none, none, none, none, none, none, none, none, none, none],
  [some 1, none, some 1, none, none, none, none, none, some 1, none, some 119.699674816712, none, none, none, none, none, some 1, none],
  [none, none, none, none, none, none, none, none, none, none, none, none, none, none, none, none, none, none],
  [none, none, none, none, none, none, none, none, none, none, none, none, none, none, none, none, none, none],
  [none, none, none, none, none, none, none, none, none, none, none, none, none, none, none, none, none, none],
  [none, none, none, none, none, none, none, none, none, none, none, none, none, none, none, none, none, none],
  [none, none, none, none, none, none, none, none, none, none, none, none, none, none, none, none, none, none],
  [some 1, none, some 1, none, none, none, none, none, some 1, none, some 1, none, none, none, none, none, some 1, none],
  [none, none, none, none, none, none, none, none, none, none, none, none, none, none, none, none, none, none]
]

/-- Parameter table `PRE_EXP` from constants.py; `none` models a NaN (undefined) entry. -/
def PRE_EXP : List (List (Option ℚ)) := [
  [none, none, none, some (-0.858295878204132), some (-1.0938094874291e-09), some (-1.78737309397548e-08), some (-0.0838261546611818), some (-2.66886601707483e-09), none, none, none, none, none, none, none, none, none, none],
  [none, none, none, none, none, none, none, none, none, none, none, none, none, none, none, none, none, none],
  [none, none, some (-99.0081347923525), some (-0.646761012315025), some (-0.915086549578604), some (-1.18093112643446), some (-8.43712628325314), some (-2.28314625934217), none, none, none, none, none, none, none, none, none, none],
  [some (-0.858295878204132), none, some (-0.646761012315025), some (-82.6721863355488), some (-10.5207504472114), some (-1.35050449002587), some (-9.39268250563414), some (-16.8232382033972), some (-12.6091974932586), none, none, none, none, none, none, none, none, none],
  [some (-1.0938094874291e-09), none, some (-0.915086549578604), some (-10.5207504472114), some (-0.882584461099775), some (-99.7156479031364), some (-0.0130328651215095), some (-42.5334406719203), some (-99.0995735110127), none, none, none, none, none, none, none, none, none],
  [some (-1.78737309397548e-08), none, some (-1.18093112643446), some (-1.35050449002587), some (-99.7156479031364), some (-44.2237583970833), some (-12.5202759383878), some (-5.91399736406338), some (-12.9831507290928), none, none, none, none, none, none, none, none, none],
  [some (-0.0838261546611818), none, some (-8.43712628325314), some (-9.39268250563414), some (-0.0130328651215095), some (-12.5202759383878), some (-0.288639980040216), some (-25.870450194609), some (-18.7104470061527), none, none, none, none, none, none, none, none, none],
  [some (-2.66886601707483e-09), none, some (-2.28314625934217), some (-16.8232382033972), some (-42.5334406719203), some (-5.91399736406338), some (-25.870450194609), some (-1.58282056298516), some (-31.6590596973416), none, none, none, none, none, none, none, none, none],
  [none, none, none, some (-12.6091974932586), some (-99.0995735110127), some (-12.9831507290928), some (-18.7104470061527), some (-31.6590596973416), none, none, none, none, none, none, none, none, some (-76.3033257777515), none],
  [none, none, none, none, none, none, none, none, none, none, none, none, none, none, none, none, none, none],
  [none, none, none, none, none, none, none, none, none, none, some (-123.098098160354), none, none, none, none, none, none, none],
  [none, none, none, none, none, none, none, none, none, none, none, none, none, none, none, none, none, none],
  [none, none, none, none, none, none, none, none, none, none, none, none, none, none, none, none, none, none],
  [none, none, none, none, none, none, none, none, none, none, none, none, none, none, none, none, none, none],
  [none, none, none, none, none, none, none, none, none, none, none, none, none, none, none, none, none, none],
  [none, none, none, none, none, none, none, none, none, none, none, none, none, none, none, none, none, none],
  [none, none, none, none, none, none, none, none, some (-76.3033257777515), none, none, none, none, none, none, none, none, none],
  [none, none, none, none, none, none, none, none, none, none, none, none, none, none, none, none, none, none]
]

/-- Parameter table `ZETA` from constants.py; `none` models a NaN (undefined) entry. -/
def ZETA : List (List (Option ℚ)) := [
  [none, none, none, some 18.1344000135578, some 8.56844906043261, some 11.1087611106611, some 50.2357409779762, some 7.5671500952314, none, none, none, none, none, none, none, none, none, none],
  [none, none, none, none, none, none, none, none, none, none, none, none, none, none, none, none, none, none],
  [none, none, some 5.50152877812295, some 3.31389587280406e-12, some 2.02755551704376e-14, some 9.98468380086182, some 2.18354821973587, some 1.99132759079248, none, none, none, none, none, none, none, none, none, none],
  [some 18.1344000135578, none, some 3.31389587280406e-12, some 6.47740711268852, some 3.66161700080677, some 88.297113180888, some 8.01270746802158, some 4.13965180665037, some 5.76541373218234, none, none, none, none, none, none, none, none, none],
  [some 8.56844906043261, none, some 2.02755551704376e-14, some 3.66161700080677, some 3.48671782959562, some 3.21428873712394, some 9.98383591800235, some 2.74371418048412, some 6.10047351801029, none, none, none, none, none, none, none, none, none],
  [some 11.1087611106611, none, some 9.98468380086182, some 88.297113180888, some 3.21428873712394, some 3.33368337046755, some 6.94810936582575, some 1.31775589055906, some 14.5736321802372, none, none, none, none, none, none, none, none, none],
  [some 50.2357409779762, none, some 2.18354821973587, some 8.01270746802158, some 9.98383591800235, some 6.94810936582575, some 4.38047773376137, some 4.92609196552841, some 6.9461838864575, none, none, none, none, none, none, none, none, none],
  [some 7.5671500952314, none, some 1.99132759079248, some 4.13965180665037, some 2.74371418048412, some 1.31775589055906, some 4.92609196552841, some 2.66993137480615, some 19.4566948543194, none, none, none, none, none, none, none, none, none],
  [none, none, none, some 5.76541373218234, some 6.10047351801029, some 14.5736321802372, some 6.9461838864575, some 19.4566948543194, none, none, none, none, none, none, none, none, some 27.0906233808744, none],
  [none, none, none, none, none, none, none, none, none, none, none, none, none, none, none, none, none, none],
  [none, none, none, none, none, none, none, none, none, none, some 9.99963298939103, none, none, none, none, none, none, none],
  [none, none, none, none, none, none, none, none, none, none, none, none, none, none, none, none, none, none],
  [none, none, none, none, none, none, none, none, none, none, none, none, none, none, none, none, none, none],
  [none, none, none, none, none, none, none, none, none, none, none, none, none, none, none, none, none, none],
  [none, none, none, none, none, none, none, none, none, none, none, none, none, none, none, none, none, none],
  [none, none, none, none, none, none, none, none, none, none, none, none, none, none, none, none, none, none],
  [none, none, none, none, none, none, none, none, some 27.0906233808744, none, none, none, none, none, none, none, none, none],
  [none, none, none, none, none, none, none, none, none, none, none, none, none, none, none, none, none, none]
]

/-- Parameter table `R_PARAM` from constants.py; `none` models a NaN (undefined) entry. -/
def R_PARAM : List (List (Option ℚ)) := [
  [none, none, none, some 0.0015913340501803, some 3.77149225649191, some 0.0688777920968749, some 0.995281956852964, some 0.00881287256708145, none, none, none, none, none, none, none, none, none, none],
  [none, none, none, none, none, none, none, none, none, none, none, none, none, none, none, none, none, none],
  [none, none, some 0.979448597224257, some 2.6041321340983, some 1.53551435398393, some 1.94629973008549, some 1.58299419634664, some 0.0169341613772597, none, none, none, none, none, none, none, none, none, none],
  [some 0.0015913340501803, none, some 2.6041321340983, some 0.00220129145480174, some 1.21000277421539, some 1.47289580740841, some 1.33523359451779, some 1.58590931222507, some 1.24712510045945, none, none, none, none, none, none, none, none, none],
  [some 3.77149225649191, none, some 1.53551435398393, some 1.21000277421539, some 2.40243326681023, some 0.763599169596819, some 1.82884175715942, some 0.881919029239093, some 0.608894407221507, none, none, none, none, none, none, none, none, none],
  [some 0.0688777920968749, none, some 1.94629973008549, some 1.47289580740841, some 0.763599169596819, some 0.0196221526216923, some 1.07312399726139, some 0.400867719435841, some 1.09267780582228, none, none, none, none, none, none, none, none, none],
  [some 0.995281956852964, none, some 1.58299419634664, some 1.33523359451779, some 1.82884175715942, some 1.07312399726139, some 2.17160799557082, some 0.896507908096202, some 1.09301691844634, none, none, none, none, none, none, none, none, none],
  [some 0.00881287256708145, none, some 0.0169341613772597, some 1.58590931222507, some 0.881919029239093, some 0.400867719435841, some 0.896507908096202, some 1.5696675055049, some 0.0020386363975639, none, none, none, none, none, none, none, none, none],
  [none, none, none, some 1.24712510045945, some 0.608894407221507, some 1.09267780582228, some 1.09301691844634, some 0.0020386363975639, none, none, none, none, none, none, none, none, some 1.49729284381904, none],
  [none, none, none, none, none, none, none, none, none, none, none, none, none, none, none, none, none, none],
  [none, none, none, none, none, none, none, none, none, none, some 0.107385590816355, none, none, none, none, none, none, none],
  [none, none, none, none, none, none, none, none, none, none, none, none, none, none, none, none, none, none],
  [none, none, none, none, none, none, none, none, none, none, none, none, none, none, none, none, none, none],
  [none, none, none, none, none, none, none, none, none, none, none, none, none, none, none, none, none, none],
  [none, none, none, none, none, none, none, none, none, none, none, none, none, none, none, none, none, none],
  [none, none, none, none, none, none, none, none, none, none, none, none, none, none, none, none, none, none],
  [none, none, none, none, none, none, none, none, some 1.49729284381904, none, none, none, none, none, none, none, none, none],
  [none, none, none, none, none, none, none, none, none, none, none, none, none, none, none, none, none, none]
]

/-- Parameter table `KAPPA_BOND` from constants.py; `none` models a NaN (undefined) entry. -/
def KAPPA_BOND : List (List (Option ℚ)) := [
  [none, none, none, none, none, none, none, none, none, none, none, none, none, none, none, none, none, none],
  [none, none, none, none, none, none, none, none, none, none, none, none, none, none, none, none, none, none],
  [none, none, none, none, none, none, none, none, none, none, none, none, none, none, none, none, none, none],
  [none, none, none, none, none, none, none, none, none, none, none, none, none, none, none, none, none, none],
  [none, none, none, none, some 6.35971211545447, some 5.46097259289613, some 4.61514758141805, some 1.12787484479824, none, none, none, none, none, none, none, none, none, none],
  [none, none, none, none, some 5.46097259289613, some 4.25893505849368, some 4.22125686188039, some 2.7224736105841, none, none, none, none, none, none, none, none, none, none],
  [none, none, none, none, some 4.61514758141805, some 4.22125686188039, some 2.6770795564117, some 11.0556993804226, none, none, none, none, none, none, none, none, none, none],
  [none, none, none, none, some 1.12787484479824, some 2.7224736105841, some 11.0556993804226, some 73.3391927480235, none, none, none, none, none, none, none, none, none, none],
  [none, none, none, none, none, none, none, none, none, none, none, none, none, none, none, none, none, none],
  [none, none, none, none, none, none, none, none, none, none, none, none, none, none, none, none, none, none],
  [none, none, none, none, none, none, none, none, none, none, none, none, none, none, none, none, none, none],
  [none, none, none, none, none, none, none, none, none, none, none, none, none, none, none, none, none, none],
  [none, none, none, none, none, none, none, none, none, none, none, none, none, none, none, none, none, none],
  [none, none, none, none, none, none, none, none, none, none, none, none, none, none, none, none, none, none],
  [none, none, none, none, none, none, none, none, none, none, none, none, none, none, none, none, none, none],
  [none, none, none, none, none, none, none, none, none, none, none, none, none, none, none, none, none, none],
  [none, none, none, none, none, none, none, none, none, none, none, none, none, none, none, none, none, none],
  [none, none, none, none, none, none, none, none, none, none, none, none, none, none, none, none, none, none]
]

/-- Parameter table `KAPPA_ANTI` from constants.py; `none` models a NaN (undefined) entry. -/
def KAPPA_ANTI : List (List (Option ℚ)) := [
  [none, none, none, none, none, none, none, none, none, none, none, none, none, none, none, none, none, none],
  [none, none, none, none, none, none, none, none, none, none, none, none, none, none, none, none, none, none],
  [none, none, none, none, none, none, none, none, none, none, none, none, none, none, none, none, none, none],
  [none, none, none, none, none, none, none, none, none, none, none, none, none, none, none, none, none, none],
  [none, none, none, none, some 2.3561185829866e-13, some 24.8167973203653, some 8.37845322326246, some 97.8067916424023, none, none, none, none, none, none, none, none, none, none],
  [none, none, none, none, some 24.8167973203653, some 0.791597061589119, some 2.47782495134405, some 3.35702346413509e-12, none, none, none, none, none, none, none, none, none, none],
  [none, none, none, none, some 8.37845322326246, some 2.47782495134405, some 11.6737472358475, some 1.33652210042449e-14, none, none, none, none, none, none, none, none, none, none],
  [none, none, none, none, some 97.8067916424023, some 3.35702346413509e-12, some 1.33652210042449e-14, some 0.088504273757526, none, none, none, none, none, none, none, none, none, none],
  [none, none, none, none, none, none, none, none, none, none, none, none, none, none, none, none, none, none],
  [none, none, none, none, none, none, none, none, none, none, none, none, none, none, none, none, none, none],
  [none, none, none, none, none, none, none, none, none, none, none, none, none, none, none, none, none, none],
  [none, none, none, none, none, none, none, none, none, none, none, none, none, none, none, none, none, none],
  [none, none, none, none, none, none, none, none, none, none, none, none, none, none, none, none, none, none],
  [none, none, none, none, none, none, none, none, none, none, none, none, none, none, none, none, none, none],
  [none, none, none, none, none, none, none, none, none, none, none, none, none, none, none, none, none, none],
  [none, none, none, none, none, none, none, none, none, none, none, none, none, none, none, none, none, none],
  [none, none, none, none, none, none, none, none, none, none, none, none, none, none, none, none, none, none],
  [none, none, none, none, none, none, none, none, none, none, none, none, none, none, none, none, none, none]
]

/-- Standard atomic masses (amu), element-index order; the later of the two dict literals in constants.py (the second assignment overrides the first). -/
def ATOMIC_MASSES : List ℚ := [1.00782503207, 4.00260325415, 7.0160034366, 9.012183065, 11.00930536, 12.0000000, 14.00307400443, 15.99491461957, 18.99840316273, 19.9924401762, 22.9897692820, 23.985041697, 26.98153853, 27.97692653465, 30.97376199842, 31.9720711744, 34.968852682, 39.9623831237]
/-- Table lookup at (row `i`, column `j`): models `T[i, j]` on an 18 x 18
NumPy array whose missing entries are NaN.  Out-of-range indices give
`none`; the code never indexes out of range (element indices are 0..17). -/
def tbl (T : List (List (Option ℚ))) (i j : ℕ) : Option ℚ :=
  Option.join ((T.get? i).bind fun r => r.get? j)

/-- `HAS_KAPPA = ~np.isnan(KAPPA_BOND)` from constants.py. -/
def HAS_KAPPA (i j : ℕ) : Bool :=
  (tbl KAPPA_BOND i j).isSome

/-- Element-wise sum of an `n` x `n` matrix: models `np.sum`. -/
def matSum {α : Type} [AddCommMonoid α] (n : ℕ) (f : Fin n → Fin n → α) : α :=
  ∑ i : Fin n, ∑ j : Fin n, f i j

/- ===================== Model 1 (zpebop1.py) ===================== -/

/-- The β used by `compute_zpe_v1`:
`np.where(is_bonding, BETA_V1_BOND[idx1, idx2], -BETA_V1_ANTI[idx1, idx2])`
with `is_bonding = bo_pairs >= 0`.  A NaN entry stays NaN (`none`). -/
def betaSignedV1 (a b : ℕ) (p : ℚ) : Option ℚ :=
  if 0 ≤ p then tbl BETA_V1_BOND a b else (tbl BETA_V1_ANTI a b).map (fun x => -x)

/-- One pair energy of `compute_zpe_v1`:
`energy_pairs = np.nan_to_num(2.0 * beta * bo_pairs, nan=0.0)`. -/
def energyV1 (a b : ℕ) (p : ℚ) : ℚ :=
  match betaSignedV1 a b p with
  | none => 0
  | some β => 2 * β * p

/-- The `two_body` matrix returned by `compute_zpe_v1`: the pair energies on
the strict lower triangle (`np.tril_indices(n, k=-1)`), zero elsewhere. -/
def twoBodyV1 (n : ℕ) (atoms : Fin n → ℕ) (bo : Fin n → Fin n → ℚ)
    (i j : Fin n) : ℚ :=
  if j < i then energyV1 (atoms i) (atoms j) (bo i j) else 0

/-- The `three_body_decomp` matrix returned by `compute_zpe_v1`:
`np.zeros((n, n))`. -/
def threeBodyDecompV1 (n : ℕ) (_i _j : Fin n) : ℚ := 0

/-- The total ZPE returned by `compute_zpe_v1`: `np.sum(two_body)`. -/
def totalV1 (n : ℕ) (atoms : Fin n → ℕ) (bo : Fin n → Fin n → ℚ) : ℚ :=
  matSum n (twoBodyV1 n atoms bo)

/- ===================== Model 2 (zpebop2.py) ===================== -/

/-- `is_anti = (bo_pairs < 0) & (n > 2)` from `compute_zpe_v2`. -/
def isAnti (n : ℕ) (p : ℚ) : Bool :=
  decide (p < 0) && decide (2 < n)

/-- Harmonic pair term of `compute_zpe_v2`:
`beta = np.where(is_anti, BETA_ANTI[idx1, idx2], BETA_BOND[idx1, idx2])`;
`harmonic_pairs = np.nan_to_num(2.0 * beta * np.abs(bo_pairs), nan=0.0)`. -/
def harmonicV2 (n a b : ℕ) (p : ℚ) : ℚ :=
  match (if isAnti n p then tbl BETA_ANTI a b else tbl BETA_BOND a b) with
  | none => 0
  | some β => 2 * β * |p|

/-- Anharmonic pair term of `compute_zpe_v2`:
`A * exp(-zeta * (R - R0))`, computed only where none of `PRE_EXP`, `ZETA`,
`R_PARAM` is NaN (`has_anharm`), and 0 otherwise. -/
noncomputable def anharmV2 (a b : ℕ) (r : ℚ) : ℝ :=
  match tbl PRE_EXP a b, tbl ZETA a b, tbl R_PARAM a b with
  | some A, some ζ, some R0 => (A : ℝ) * Real.exp (-(ζ : ℝ) * ((r : ℝ) - (R0 : ℝ)))
  | _, _, _ => 0

/-- The `two_body` matrix built by `compute_zpe_v2`:
`two_body[row_idx, col_idx] = harmonic_pairs + anharmonic_pairs` on the
strict lower triangle, zero elsewhere. -/
noncomputable def twoBodyV2 (n : ℕ) (atoms : Fin n → ℕ)
    (bo dist : Fin n → Fin n → ℚ) (i j : Fin n) : ℝ :=
  if j < i then
    (harmonicV2 n (atoms i) (atoms j) (bo i j) : ℝ) + anharmV2 (atoms i) (atoms j) (dist i j)
  else 0

/-- Branch-selected three-body κ of `compute_zpe_v2`:
`KAPPA_ANTI[...] if is_anti_pq else KAPPA_BOND[...]`. -/
def kappaV2 (n a b : ℕ) (p : ℚ) : Option ℚ :=
  if isAnti n p then tbl KAPPA_ANTI a b else tbl KAPPA_BOND a b

/-- The guard of the triplet loop in `compute_zpe_v2`: the triplet is
processed iff `HAS_KAPPA` holds for all three pairs (first check) and none
of the three branch-selected κ values is NaN (second check). -/
def tripletQualifies (n : ℕ) (atoms : Fin n → ℕ) (bo : Fin n → Fin n → ℚ)
    (i j k : Fin n) : Bool :=
  (HAS_KAPPA (atoms i) (atoms j) && HAS_KAPPA (atoms i) (atoms k) &&
    HAS_KAPPA (atoms j) (atoms k)) &&
  ((kappaV2 n (atoms i) (atoms j) (bo i j)).isSome &&
    (kappaV2 n (atoms i) (atoms k) (bo i k)).isSome &&
    (kappaV2 n (atoms j) (atoms k) (bo j k)).isSome)

/-- One clamped law-of-cosines value:
`np.clip((y**2 + z**2 - x**2) / (2 * y * z), -1, 1)` where `x` is the side
opposite the angle.  Rational division is total (x / 0 = 0). -/
def cosClamped (x y z : ℚ) : ℚ :=
  min 1 (max (-1) ((y ^ 2 + z ^ 2 - x ^ 2) / (2 * y * z)))

/-- `cos_prod = cos_ij * cos_ik * cos_jk` for a triplet, from the three
pairwise distances, exactly as in `compute_zpe_v2`. -/
def cosProd (rij rik rjk : ℚ) : ℚ :=
  cosClamped rij rik rjk * cosClamped rik rij rjk * cosClamped rjk rij rik

/-- `three_body_value = kappa_prod * bo_prod * cos_prod` for a processed
triplet of `compute_zpe_v2`; 0 when the triplet is skipped by the guard. -/
def tripletValue (n : ℕ) (atoms : Fin n → ℕ) (bo dist : Fin n → Fin n → ℚ)
    (i j k : Fin n) : ℚ :=
  match kappaV2 n (atoms i) (atoms j) (bo i j),
        kappaV2 n (atoms i) (atoms k) (bo i k),
        kappaV2 n (atoms j) (atoms k) (bo j k),
        tripletQualifies n atoms bo i j k with
  | some κij, some κik, some κjk, true =>
      (κij * κik * κjk) *
        (2 * |bo i j| * (2 * |bo i k|) * (2 * |bo j k|)) *
        cosProd (dist i j) (dist i k) (dist j k)
  | _, _, _, _ => 0

/-- `sum_two = two_body[i,j] + two_body[i,k] + two_body[j,k]`, the
denominator of the proportional decomposition in `compute_zpe_v2`. -/
noncomputable def sumTwo (n : ℕ) (atoms : Fin n → ℕ)
    (bo dist : Fin n → Fin n → ℚ) (i j k : Fin n) : ℝ :=
  twoBodyV2 n atoms bo dist i j + twoBodyV2 n atoms bo dist i k +
    twoBodyV2 n atoms bo dist j k

/-- `three_body_total`: the triplet loop of `compute_zpe_v2` runs over
`i in range(2, n)`, `j in range(1, i)`, `k in range(j)` and accumulates
`three_body_value`; modelled as a sum over ordered triples `k < j < i`. -/
def threeBodyTotalV2 (n : ℕ) (atoms : Fin n → ℕ)
    (bo dist : Fin n → Fin n → ℚ) : ℚ :=
  ∑ i : Fin n, ∑ j : Fin n, ∑ k : Fin n,
    if k < j ∧ j < i then tripletValue n atoms bo dist i j k else 0

/-- The contribution of the triplet `(i, j, k)` to entry `(p, q)` of
`three_body_decomp` in `compute_zpe_v2`:
`three_body_decomp[i,j] += three_body_value * (e_ij / sum_two)` and
similarly for `(i,k)` and `(j,k)`.  A skipped triplet has
`tripletValue = 0`, hence contributes 0. -/
noncomputable def tripletShare (n : ℕ) (atoms : Fin n → ℕ)
    (bo dist : Fin n → Fin n → ℚ) (i j k p q : Fin n) : ℝ :=
  (if p = i ∧ q = j then
    (tripletValue n atoms bo dist i j k : ℝ) *
      (twoBodyV2 n atoms bo dist i j / sumTwo n atoms bo dist i j k) else 0) +
  (if p = i ∧ q = k then
    (tripletValue n atoms bo dist i j k : ℝ) *
      (twoBodyV2 n atoms bo dist i k / sumTwo n atoms bo dist i j k) else 0) +
  (if p = j ∧ q = k then
    (tripletValue n atoms bo dist i j k : ℝ) *
      (twoBodyV2 n atoms bo dist j k / sumTwo n atoms bo dist i j k) else 0)

/-- The `three_body_decomp` matrix returned by `compute_zpe_v2`: entry
`(p, q)` accumulates the proportional shares of every processed triplet. -/
noncomputable def threeBodyDecompV2 (n : ℕ) (atoms : Fin n → ℕ)
    (bo dist : Fin n → Fin n → ℚ) (p q : Fin n) : ℝ :=
  ∑ i : Fin n, ∑ j : Fin n, ∑ k : Fin n,
    if k < j ∧ j < i then tripletShare n atoms bo dist i j k p q else 0

/-- The total ZPE returned by `compute_zpe_v2`:
`total_zpe = np.sum(two_body) + three_body_total`. -/
noncomputable def totalV2 (n : ℕ) (atoms : Fin n → ℕ)
    (bo dist : Fin n → Fin n → ℚ) : ℝ :=
  matSum n (twoBodyV2 n atoms bo dist) + (threeBodyTotalV2 n atoms bo dist : ℝ)

/-- The triplet loop of `compute_zpe_v2` performs a division whose
denominator is zero: some processed (guard-passing) triplet has
`sum_two = 0`.  In IEEE arithmetic this puts NaN into `three_body_decomp`;
the claim under test asserts it never happens. -/
def performsZeroDivision (n : ℕ) (atoms : Fin n → ℕ)
    (bo dist : Fin n → Fin n → ℚ) : Prop :=
  ∃ i j k : Fin n, k < j ∧ j < i ∧
    tripletQualifies n atoms bo i j k = true ∧
    sumTwo n atoms bo dist i j k = 0

/- ===================== Core calculator (core.py) ===================== -/

/-- The two supported models of `ZPECalculator` (`VALID_MODELS`). -/
inductive ZModel
| zpebop1
| zpebop2
deriving DecidableEq

/-- `compute_zpe` dispatch: the `two_body` matrix of the selected engine
(Model 1 values are exact rationals, embedded into `ℝ`). -/
noncomputable def engineTwoBody (m : ZModel) (n : ℕ) (atoms : Fin n → ℕ)
    (bo dist : Fin n → Fin n → ℚ) (i j : Fin n) : ℝ :=
  match m with
  | .zpebop1 => (twoBodyV1 n atoms bo i j : ℝ)
  | .zpebop2 => twoBodyV2 n atoms bo dist i j

/-- `compute_zpe` dispatch: the `three_body_decomp` matrix. -/
noncomputable def engineDecomp (m : ZModel) (n : ℕ) (atoms : Fin n → ℕ)
    (bo dist : Fin n → Fin n → ℚ) (i j : Fin n) : ℝ :=
  match m with
  | .zpebop1 => (threeBodyDecompV1 n i j : ℝ)
  | .zpebop2 => threeBodyDecompV2 n atoms bo dist i j

/-- `compute_zpe` dispatch: the returned `total_zpe`. -/
noncomputable def engineTotal (m : ZModel) (n : ℕ) (atoms : Fin n → ℕ)
    (bo dist : Fin n → Fin n → ℚ) : ℝ :=
  match m with
  | .zpebop1 => (totalV1 n atoms bo : ℝ)
  | .zpebop2 => totalV2 n atoms bo dist

/-- `ATOMIC_MASSES[self.atoms[i]]`, with atoms identified by element index
(the symbol-to-index map is a bijection onto 0..17).  Atoms of the parsed
molecule are always in the table. -/
def massOf (a : ℕ) : ℚ :=
  (ATOMIC_MASSES.get? a).getD 0

/-- Reduced mass `μ = m₁·m₂ / (m₁ + m₂)`. -/
def redMass (m1 m2 : ℚ) : ℚ :=
  (m1 * m2) / (m1 + m2)

/-- `isotopes.get(num, std)`: the substituted mass where present, else the
standard mass; `isotopes` maps 1-indexed atom numbers to masses. -/
def isoMass (iso : List (ℕ × ℚ)) (num : ℕ) (std : ℚ) : ℚ :=
  (iso.lookup num).getD std

/-- `_compute_isotope_correction_matrix`: `np.ones((n, n))` with every
strict-lower-triangle entry overwritten by `sqrt(μ₁ / μ₂)`, where `μ₁` uses
the standard masses and `μ₂` the substituted ones (1-indexed lookup). -/
noncomputable def corrFactor (n : ℕ) (atoms : Fin n → ℕ)
    (iso : List (ℕ × ℚ)) (i j : Fin n) : ℝ :=
  if j < i then
    Real.sqrt
      ((redMass (massOf (atoms i)) (massOf (atoms j)) /
        redMass (isoMass iso (i.val + 1) (massOf (atoms i)))
          (isoMass iso (j.val + 1) (massOf (atoms j)))) : ℚ)
  else 1

/-- The result record of `compute_zpe_isotope` (`IsotopeZPEResult`). -/
structure IsoResult (n : ℕ) where
  total_zpe : ℝ
  total_zpe_normal : ℝ
  two_body : Fin n → Fin n → ℝ
  two_body_normal : Fin n → Fin n → ℝ
  three_body_decomp : Fin n → Fin n → ℝ
  three_body_decomp_normal : Fin n → Fin n → ℝ
  correction_factors : Fin n → Fin n → ℝ

/-- The `IsotopeZPEResult` built on the non-error path of
`compute_zpe_isotope`: element-wise products with the correction matrix and
`total = np.sum(two_body_isotope) + np.sum(three_body_isotope)`. -/
noncomputable def isoResult (m : ZModel) (n : ℕ) (atoms : Fin n → ℕ)
    (bo dist : Fin n → Fin n → ℚ) (iso : List (ℕ × ℚ)) : IsoResult n :=
  { total_zpe :=
      matSum n (fun i j => engineTwoBody m n atoms bo dist i j * corrFactor n atoms iso i j) +
        matSum n (fun i j => engineDecomp m n atoms bo dist i j * corrFactor n atoms iso i j)
    total_zpe_normal := engineTotal m n atoms bo dist
    two_body := fun i j => engineTwoBody m n atoms bo dist i j * corrFactor n atoms iso i j
    two_body_normal := engineTwoBody m n atoms bo dist
    three_body_decomp := fun i j => engineDecomp m n atoms bo dist i j * corrFactor n atoms iso i j
    three_body_decomp_normal := engineDecomp m n atoms bo dist
    correction_factors := corrFactor n atoms iso }

/-- `compute_zpe_isotope`: the validation loop raises
`ValueError("Invalid atom number ...")` for the first atom number outside
`[1, n]`; only when every referenced atom number is in range does the
computation proceed.  The eager check is modelled by the `Except` guard:
energy terms occur only in the `ok` branch. -/
noncomputable def computeZpeIsotope (m : ZModel) (n : ℕ) (atoms : Fin n → ℕ)
    (bo dist : Fin n → Fin n → ℚ) (iso : List (ℕ × ℚ)) :
    Except String (IsoResult n) :=
  if iso.any (fun kv => decide (kv.1 < 1) || decide (n < kv.1)) then
    Except.error "Invalid atom number: must be between 1 and n_atoms."
  else
    Except.ok (isoResult m n atoms bo dist iso)

/-- No processed triplet of `compute_zpe_v2` has a zero two-body sum: the
hypothesis under which the proportional decomposition is division-safe. -/
def NoDegenerateTriplet (n : ℕ) (atoms : Fin n → ℕ)
    (bo dist : Fin n → Fin n → ℚ) : Prop :=
  ∀ i j k : Fin n, k < j → j < i →
    tripletQualifies n atoms bo i j k = true →
    sumTwo n atoms bo dist i j k ≠ 0

/- ===================== Parser (parser.py), coordinate extraction ========= -/

/-- A line of the Gaussian document, abstracted to how the coordinate
extraction treats it: a line containing the `Standard orientation:` marker;
a line whose stripped text starts with dashes (block terminator); a line
whose fields from column 34 on parse as at least three floats (a data line,
carrying the three parsed rationals); any other line (skipped - fewer than
three fields, or a field that fails float conversion). -/
inductive GLine
| marker
| dashes
| coordData (x y z : ℚ)
| other
deriving DecidableEq

/-- `_parse_coordinates_fast`: scan lines until `n` coordinate rows are
collected; stop early at a dashes line or end of data; skip lines that do
not parse.  Returns the collected rows (`coords[:atom_idx]`). -/
def scanCoords : ℕ → List GLine → List (ℚ × ℚ × ℚ)
  | 0, _ => []
  | _ + 1, [] => []
  | _ + 1, .dashes :: _ => []
  | n + 1, .coordData x y z :: rest => (x, y, z) :: scanCoords n rest
  | n + 1, .marker :: rest => scanCoords (n + 1) rest
  | n + 1, .other :: rest => scanCoords (n + 1) rest

/-- `data.rfind(b'Standard orientation:')` at line granularity: the index
of the last line containing the marker, if any. -/
def lastMarkerLine : List GLine → Option ℕ
  | [] => none
  | l :: rest =>
    match lastMarkerLine rest with
    | some i => some (i + 1)
    | none => if l = GLine.marker then some 0 else none

/-- The coordinate-extraction slice of `parse_gaussian_output`: find the
last `Standard orientation:` marker (`rfind`), raise `ValueError` if absent
(`none`), skip 5 newlines (the rest of the marker line plus the 4 header
lines), then scan `n` coordinate rows. -/
def parseCoordsDoc (doc : List GLine) (nAtoms : ℕ) : Option (List (ℚ × ℚ × ℚ)) :=
  match lastMarkerLine doc with
  | none => none
  | some idx => some (scanCoords nAtoms (doc.drop (idx + 5)))

/- ========== Specification-side definitions (written from spec.md) ========= -/

/-- Written from the spec (§4.4, two-body pass), to be compared with the
implementation: branch is antibonding only if `P < 0` and `N > 2`;
`E_h = 2·β·|P|` with β from the branch-appropriate table, 0 if undefined;
`E_a = A·exp(−ζ·(R − R₀))` computed only if all three anharmonic
parameters are defined for the element pair, else 0; the entry is
`E_h + E_a`. -/
noncomputable def TwoBodySpecV2 (n a b : ℕ) (p r : ℚ) : ℝ :=
  ((((if p < 0 ∧ 2 < n then tbl BETA_ANTI a b else tbl BETA_BOND a b).map
      fun c => 2 * c * |p|).getD 0 : ℚ) : ℝ) +
  (if (tbl PRE_EXP a b).isSome ∧ (tbl ZETA a b).isSome ∧ (tbl R_PARAM a b).isSome then
    (((tbl PRE_EXP a b).getD 0 : ℚ) : ℝ) *
      Real.exp (-(((tbl ZETA a b).getD 0 : ℚ) : ℝ) *
        ((r : ℝ) - (((tbl R_PARAM a b).getD 0 : ℚ) : ℝ)))
  else 0)

/-- Written from the spec (§4.4, three-body pass): an interior-angle cosine
by the law of cosines from the three pairwise distances, clamped to
`[-1, 1]`; `opp` is the side opposite the angle. -/
def cosineSpec (opp s1 s2 : ℚ) : ℚ :=
  max (-1) (min 1 ((s1 ^ 2 + s2 ^ 2 - opp ^ 2) / (2 * s1 * s2)))

/-- Written from the spec (§4.3, Model 1): branch on the sign of `P`
(bonding if `P ≥ 0`), look β up in the branch table, negate it on the
antibonding branch, contribute `2·β_signed·P`, and 0 if undefined. -/
def TwoBodySpecV1 (a b : ℕ) (p : ℚ) : ℚ :=
  if 0 ≤ p then
    (tbl BETA_V1_BOND a b).elim 0 (fun β => 2 * β * p)
  else
    (tbl BETA_V1_ANTI a b).elim 0 (fun β => 2 * (-β) * p)

/- ========== Concrete inputs used by counterexamples and witnesses ========= -/

/-- Three carbon atoms (element index 5). -/
def atomsC3 : Fin 3 → ℕ := fun _ => 5

/-- The C–C bond order at which the harmonic term `2·β(C,C)·P` exactly
cancels the (negative) anharmonic term at `R = R₀(C,C)`:
`P* = -PRE_EXP(C,C) / (2·BETA_BOND(C,C))`. -/
def PstarC : ℚ := 44.2237583970833 / 6.86502108334094

/-- `R_PARAM(C,C)`: the reference distance of the C–C anharmonic term. -/
def R0C : ℚ := 0.0196221526216923

/-- Constant bond-order matrix at `P*(C,C)`. -/
def boC : Fin 3 → Fin 3 → ℚ := fun _ _ => PstarC

/-- Constant distance matrix at `R₀(C,C)` (an equilateral triangle). -/
def distC : Fin 3 → Fin 3 → ℚ := fun _ _ => R0C

/-- Three boron atoms (element index 4). -/
def atomsB3 : Fin 3 → ℕ := fun _ => 4

/-- The B–B bond order at which the harmonic term cancels the anharmonic
term at `R = R₀(B,B)`: `P* = -PRE_EXP(B,B) / (2·BETA_BOND(B,B))`. -/
def PstarB : ℚ := 0.882584461099775 / 37.9722075422556

/-- `R_PARAM(B,B)`. -/
def R0B : ℚ := 2.40243326681023

/-- Constant bond-order matrix at `P*(B,B)`. -/
def boB : Fin 3 → Fin 3 → ℚ := fun _ _ => PstarB

/-- Constant distance matrix at `R₀(B,B)`. -/
def distB : Fin 3 → Fin 3 → ℚ := fun _ _ => R0B

/-- A diatomic of two hydrogens. -/
def atomsH2 : Fin 2 → ℕ := fun _ => 0

/-- H₂ bond orders: `P = 1/2` everywhere. -/
def boH2 : Fin 2 → Fin 2 → ℚ := fun _ _ => 1 / 2

/-- H₂ distances: 1 Å everywhere. -/
def distH2 : Fin 2 → Fin 2 → ℚ := fun _ _ => 1

/-- A boron-nitrogen diatomic: atom 1 is N (index 6), atom 0 is B (index 4). -/
def atomsBN : Fin 2 → ℕ := fun i => if i = 0 then 4 else 6

/-- B–N bond orders: `P = -1/2` everywhere (antibonding). -/
def boBN : Fin 2 → Fin 2 → ℚ := fun _ _ => -(1 / 2)

/-- Three hydrogens. -/
def atomsH3 : Fin 3 → ℕ := fun _ => 0

/-- H₃ bond orders: `P = 1/2` everywhere. -/
def boH3 : Fin 3 → Fin 3 → ℚ := fun _ _ => 1 / 2

/-- H₃ distances: 1 Å everywhere. -/
def distH3 : Fin 3 → Fin 3 → ℚ := fun _ _ => 1

/- ===================== Helper lemmas ===================== -/

theorem tbl_none_of_length_le {T : List (List (Option ℚ))} {a : ℕ} (b : ℕ)
    (h : T.length ≤ a) : tbl T a b = none := by
  unfold tbl
  rw [List.get?_eq_none.2 h]
  rfl

theorem tbl_none_of_row_length_le {T : List (List (Option ℚ))} (a : ℕ) {b : ℕ}
    (h : ∀ r ∈ T, r.length ≤ b) : tbl T a b = none := by
  unfold tbl
  cases hg : T.get? a with
  | none => rfl
  | some r =>
    show Option.join (r.get? b) = none
    rw [List.get?_eq_none.2 (h r (List.get?_mem hg))]
    rfl

theorem hasKappa_lt (a b : ℕ) (h : HAS_KAPPA a b = true) : a < 18 ∧ b < 18 := by
  rcases Nat.lt_or_ge a 18 with ha | ha
  · rcases Nat.lt_or_ge b 18 with hb | hb
    · exact ⟨ha, hb⟩
    · exfalso
      have hz : tbl KAPPA_BOND a b = none :=
        tbl_none_of_row_length_le a fun r hr => by
          have h18 : r.length = 18 := by revert r hr; decide
          omega
      rw [HAS_KAPPA, hz] at h
      exact Bool.false_ne_true h
  · exfalso
    have hz : tbl KAPPA_BOND a b = none := by
      apply tbl_none_of_length_le
      have : KAPPA_BOND.length = 18 := by decide
      omega
    rw [HAS_KAPPA, hz] at h
    exact Bool.false_ne_true h

theorem hasKappa_anti_isSome (a b : ℕ) (h : HAS_KAPPA a b = true) :
    (tbl KAPPA_ANTI a b).isSome = true := by
  obtain ⟨ha, hb⟩ := hasKappa_lt a b h
  exact (by decide :
    ∀ x : Fin 18, ∀ y : Fin 18, HAS_KAPPA x.val y.val = true →
      (tbl KAPPA_ANTI x.val y.val).isSome = true) ⟨a, ha⟩ ⟨b, hb⟩ h

theorem kappaV2_isSome (n a b : ℕ) (p : ℚ) (h : HAS_KAPPA a b = true) :
    (kappaV2 n a b p).isSome = true := by
  unfold kappaV2
  split
  · exact hasKappa_anti_isSome a b h
  · exact h

theorem tripletQualifies_eq_hasKappa (n : ℕ) (atoms : Fin n → ℕ)
    (bo : Fin n → Fin n → ℚ) (i j k : Fin n) :
    tripletQualifies n atoms bo i j k =
      (HAS_KAPPA (atoms i) (atoms j) && HAS_KAPPA (atoms i) (atoms k) &&
        HAS_KAPPA (atoms j) (atoms k)) := by
  unfold tripletQualifies
  by_cases h1 : HAS_KAPPA (atoms i) (atoms j) = true
  · by_cases h2 : HAS_KAPPA (atoms i) (atoms k) = true
    · by_cases h3 : HAS_KAPPA (atoms j) (atoms k) = true
      · simp [h1, h2, h3, kappaV2_isSome _ _ _ _ h1, kappaV2_isSome _ _ _ _ h2,
          kappaV2_isSome _ _ _ _ h3]
      · simp [Bool.eq_false_iff.2 h3]
    · simp [Bool.eq_false_iff.2 h2]
  · simp [Bool.eq_false_iff.2 h1]

theorem tripletValue_of_not_qualifies (n : ℕ) (atoms : Fin n → ℕ)
    (bo dist : Fin n → Fin n → ℚ) (i j k : Fin n)
    (h : tripletQualifies n atoms bo i j k = false) :
    tripletValue n atoms bo dist i j k = 0 := by
  unfold tripletValue
  split
  · rename_i heq
    rw [h] at heq
    exact absurd heq (by simp)
  · rfl

theorem sum5_swap {M : Type} [AddCommMonoid M] {α : Type} [Fintype α]
    (F : α → α → α → α → α → M) :
    (∑ p : α, ∑ q : α, ∑ i : α, ∑ j : α, ∑ k : α, F p q i j k) =
    ∑ i : α, ∑ j : α, ∑ k : α, ∑ p : α, ∑ q : α, F p q i j k := by
  have h2 : ∀ (G : α → α → M),
      (∑ p : α, ∑ q : α, G p q) = ∑ z : α × α, G z.1 z.2 :=
    fun G => (Fintype.sum_prod_type' G).symm
  have h3 : ∀ (G : α → α → α → M),
      (∑ i : α, ∑ j : α, ∑ k : α, G i j k) = ∑ w : α × α × α, G w.1 w.2.1 w.2.2 := by
    intro G
    calc (∑ i : α, ∑ j : α, ∑ k : α, G i j k)
        = ∑ i : α, ∑ z : α × α, G i z.1 z.2 :=
          Finset.sum_congr rfl fun i _ => (Fintype.sum_prod_type' (G i)).symm
      _ = ∑ w : α × α × α, G w.1 w.2.1 w.2.2 :=
          (Fintype.sum_prod_type' (fun a (z : α × α) => G a z.1 z.2)).symm
  calc (∑ p : α, ∑ q : α, ∑ i : α, ∑ j : α, ∑ k : α, F p q i j k)
      = ∑ z : α × α, ∑ i : α, ∑ j : α, ∑ k : α, F z.1 z.2 i j k :=
        h2 (fun p q => ∑ i : α, ∑ j : α, ∑ k : α, F p q i j k)
    _ = ∑ z : α × α, ∑ w : α × α × α, F z.1 z.2 w.1 w.2.1 w.2.2 :=
        Finset.sum_congr rfl fun z _ => h3 (F z.1 z.2)
    _ = ∑ w : α × α × α, ∑ z : α × α, F z.1 z.2 w.1 w.2.1 w.2.2 := Finset.sum_comm
    _ = ∑ w : α × α × α, ∑ p : α, ∑ q : α, F p q w.1 w.2.1 w.2.2 :=
        Finset.sum_congr rfl fun w _ => (h2 (fun p q => F p q w.1 w.2.1 w.2.2)).symm
    _ = ∑ i : α, ∑ j : α, ∑ k : α, ∑ p : α, ∑ q : α, F p q i j k :=
        (h3 (fun i j k => ∑ p : α, ∑ q : α, F p q i j k)).symm

theorem share_pq_sum (n : ℕ) (atoms : Fin n → ℕ) (bo dist : Fin n → Fin n → ℚ)
    (i j k : Fin n)
    (hs : tripletQualifies n atoms bo i j k = true →
      sumTwo n atoms bo dist i j k ≠ 0) :
    (∑ p : Fin n, ∑ q : Fin n, tripletShare n atoms bo dist i j k p q) =
      (tripletValue n atoms bo dist i j k : ℝ) := by
  have hexp : (∑ p : Fin n, ∑ q : Fin n, tripletShare n atoms bo dist i j k p q) =
      (tripletValue n atoms bo dist i j k : ℝ) *
        (twoBodyV2 n atoms bo dist i j / sumTwo n atoms bo dist i j k) +
      (tripletValue n atoms bo dist i j k : ℝ) *
        (twoBodyV2 n atoms bo dist i k / sumTwo n atoms bo dist i j k) +
      (tripletValue n atoms bo dist i j k : ℝ) *
        (twoBodyV2 n atoms bo dist j k / sumTwo n atoms bo dist i j k) := by
    unfold tripletShare
    simp [Finset.sum_add_distrib, ite_and]
  rw [hexp]
  by_cases hq : tripletQualifies n atoms bo i j k = true
  · have hs' := hs hq
    have hone : twoBodyV2 n atoms bo dist i j / sumTwo n atoms bo dist i j k +
        twoBodyV2 n atoms bo dist i k / sumTwo n atoms bo dist i j k +
        twoBodyV2 n atoms bo dist j k / sumTwo n atoms bo dist i j k = 1 := by
      rw [div_add_div_same, div_add_div_same]
      exact div_self hs'
    calc (tripletValue n atoms bo dist i j k : ℝ) *
          (twoBodyV2 n atoms bo dist i j / sumTwo n atoms bo dist i j k) +
        (tripletValue n atoms bo dist i j k : ℝ) *
          (twoBodyV2 n atoms bo dist i k / sumTwo n atoms bo dist i j k) +
        (tripletValue n atoms bo dist i j k : ℝ) *
          (twoBodyV2 n atoms bo dist j k / sumTwo n atoms bo dist i j k)
        = (tripletValue n atoms bo dist i j k : ℝ) *
            (twoBodyV2 n atoms bo dist i j / sumTwo n atoms bo dist i j k +
              twoBodyV2 n atoms bo dist i k / sumTwo n atoms bo dist i j k +
              twoBodyV2 n atoms bo dist j k / sumTwo n atoms bo dist i j k) := by ring
      _ = (tripletValue n atoms bo dist i j k : ℝ) := by rw [hone, mul_one]
  · have hz : tripletValue n atoms bo dist i j k = 0 :=
      tripletValue_of_not_qualifies n atoms bo dist i j k (Bool.eq_false_iff.2 hq)
    rw [hz]
    simp

theorem decompSum_eq_threeBodyTotal (n : ℕ) (atoms : Fin n → ℕ)
    (bo dist : Fin n → Fin n → ℚ)
    (hnd : NoDegenerateTriplet n atoms bo dist) :
    matSum n (threeBodyDecompV2 n atoms bo dist) =
      (threeBodyTotalV2 n atoms bo dist : ℝ) := by
  unfold matSum threeBodyDecompV2 threeBodyTotalV2
  rw [sum5_swap]
  push_cast
  refine Finset.sum_congr rfl fun i _ => Finset.sum_congr rfl fun j _ =>
    Finset.sum_congr rfl fun k _ => ?_
  by_cases hg : k < j ∧ j < i
  · simp only [if_pos hg]
    exact share_pq_sum n atoms bo dist i j k (fun hq => hnd i j k hg.1 hg.2 hq)
  · simp [if_neg hg]

/- ============ Evaluations on the degenerate carbon molecule ============ -/

theorem PstarC_pos : 0 < PstarC := by
  unfold PstarC
  norm_num

theorem isAntiC : isAnti 3 PstarC = false := by
  unfold isAnti
  have h : ¬ (PstarC < 0) := not_lt.2 (le_of_lt PstarC_pos)
  simp [h]

theorem harmC : harmonicV2 3 5 5 PstarC = 44.2237583970833 := by
  unfold harmonicV2
  rw [isAntiC]
  show 2 * 3.43251054167047 * |PstarC| = 44.2237583970833
  rw [abs_of_pos PstarC_pos]
  unfold PstarC
  norm_num

theorem anharmC : anharmV2 5 5 R0C = ((-44.2237583970833 : ℚ) : ℝ) := by
  show ((-44.2237583970833 : ℚ) : ℝ) *
      Real.exp (-((3.33368337046755 : ℚ) : ℝ) *
        ((R0C : ℝ) - ((0.0196221526216923 : ℚ) : ℝ))) =
    ((-44.2237583970833 : ℚ) : ℝ)
  have h0 : ((R0C : ℚ) : ℝ) - ((0.0196221526216923 : ℚ) : ℝ) = 0 := by
    norm_num [R0C]
  rw [h0, mul_zero, Real.exp_zero, mul_one]

theorem twoBodyC_zero (i j : Fin 3) : twoBodyV2 3 atomsC3 boC distC i j = 0 := by
  unfold twoBodyV2
  split
  · rw [show atomsC3 i = 5 from rfl, show atomsC3 j = 5 from rfl,
      show boC i j = PstarC from rfl, show distC i j = R0C from rfl, harmC, anharmC]
    push_cast
    norm_num
  · rfl

theorem sumTwoC_zero : sumTwo 3 atomsC3 boC distC 2 1 0 = 0 := by
  unfold sumTwo
  rw [twoBodyC_zero, twoBodyC_zero, twoBodyC_zero]
  norm_num

theorem qualifiesC : tripletQualifies 3 atomsC3 boC 2 1 0 = true := by
  unfold tripletQualifies kappaV2 HAS_KAPPA
  rw [show atomsC3 2 = 5 from rfl, show atomsC3 1 = 5 from rfl,
    show atomsC3 0 = 5 from rfl, show boC 2 1 = PstarC from rfl,
    show boC 2 0 = PstarC from rfl, show boC 1 0 = PstarC from rfl, isAntiC]
  rfl

theorem kappaC (a b : Fin 3) :
    kappaV2 3 (atomsC3 a) (atomsC3 b) (boC a b) = some 4.25893505849368 := by
  unfold kappaV2
  rw [show atomsC3 a = 5 from rfl, show atomsC3 b = 5 from rfl,
    show boC a b = PstarC from rfl, isAntiC]
  rfl

theorem cosC : cosClamped R0C R0C R0C = 1 / 2 := by
  unfold cosClamped R0C
  norm_num

theorem tripletValueC_pos : 0 < tripletValue 3 atomsC3 boC distC 2 1 0 := by
  unfold tripletValue
  rw [kappaC, kappaC, kappaC, qualifiesC]
  show 0 < (4.25893505849368 * 4.25893505849368 * 4.25893505849368 : ℚ) *
    (2 * |boC 2 1| * (2 * |boC 2 0|) * (2 * |boC 1 0|)) *
    cosProd (distC 2 1) (distC 2 0) (distC 1 0)
  rw [show distC 2 1 = R0C from rfl, show distC 2 0 = R0C from rfl,
    show distC 1 0 = R0C from rfl, show boC 2 1 = PstarC from rfl,
    show boC 2 0 = PstarC from rfl, show boC 1 0 = PstarC from rfl]
  unfold cosProd
  rw [cosC, abs_of_pos PstarC_pos]
  have hp := PstarC_pos
  positivity

theorem threeBodyTotalC :
    threeBodyTotalV2 3 atomsC3 boC distC = tripletValue 3 atomsC3 boC distC 2 1 0 := by
  unfold threeBodyTotalV2
  simp only [Fin.sum_univ_three]
  norm_num [Fin.lt_def]

theorem matSumTwoC : matSum 3 (twoBodyV2 3 atomsC3 boC distC) = 0 := by
  unfold matSum
  exact Finset.sum_eq_zero fun i _ => Finset.sum_eq_zero fun j _ => twoBodyC_zero i j

theorem decompC_zero (p q : Fin 3) : threeBodyDecompV2 3 atomsC3 boC distC p q = 0 := by
  unfold threeBodyDecompV2
  refine Finset.sum_eq_zero fun i _ => Finset.sum_eq_zero fun j _ =>
    Finset.sum_eq_zero fun k _ => ?_
  split
  · unfold tripletShare
    simp [twoBodyC_zero]
  · rfl

theorem matSumDecompC : matSum 3 (threeBodyDecompV2 3 atomsC3 boC distC) = 0 := by
  unfold matSum
  exact Finset.sum_eq_zero fun p _ => Finset.sum_eq_zero fun q _ => decompC_zero p q

theorem totalC_pos : 0 < totalV2 3 atomsC3 boC distC := by
  unfold totalV2
  rw [matSumTwoC, threeBodyTotalC, zero_add]
  exact_mod_cast tripletValueC_pos

/- ============ Evaluations on the degenerate boron molecule ============ -/

theorem PstarB_pos : 0 < PstarB := by
  unfold PstarB
  norm_num

theorem isAntiB : isAnti 3 PstarB = false := by
  unfold isAnti
  have h : ¬ (PstarB < 0) := not_lt.2 (le_of_lt PstarB_pos)
  simp [h]

theorem harmB : harmonicV2 3 4 4 PstarB = 0.882584461099775 := by
  unfold harmonicV2
  rw [isAntiB]
  show 2 * 18.9861037711278 * |PstarB| = 0.882584461099775
  rw [abs_of_pos PstarB_pos]
  unfold PstarB
  norm_num

theorem anharmB : anharmV2 4 4 R0B = ((-0.882584461099775 : ℚ) : ℝ) := by
  show ((-0.882584461099775 : ℚ) : ℝ) *
      Real.exp (-((3.48671782959562 : ℚ) : ℝ) *
        ((R0B : ℝ) - ((2.40243326681023 : ℚ) : ℝ))) =
    ((-0.882584461099775 : ℚ) : ℝ)
  have h0 : ((R0B : ℚ) : ℝ) - ((2.40243326681023 : ℚ) : ℝ) = 0 := by
    norm_num [R0B]
  rw [h0, mul_zero, Real.exp_zero, mul_one]

theorem twoBodyB_zero (i j : Fin 3) : twoBodyV2 3 atomsB3 boB distB i j = 0 := by
  unfold twoBodyV2
  split
  · rw [show atomsB3 i = 4 from rfl, show atomsB3 j = 4 from rfl,
      show boB i j = PstarB from rfl, show distB i j = R0B from rfl, harmB, anharmB]
    push_cast
    norm_num
  · rfl

theorem sumTwoB_zero : sumTwo 3 atomsB3 boB distB 2 1 0 = 0 := by
  unfold sumTwo
  rw [twoBodyB_zero, twoBodyB_zero, twoBodyB_zero]
  norm_num

theorem qualifiesB : tripletQualifies 3 atomsB3 boB 2 1 0 = true := by
  unfold tripletQualifies kappaV2 HAS_KAPPA
  rw [show atomsB3 2 = 4 from rfl, show atomsB3 1 = 4 from rfl,
    show atomsB3 0 = 4 from rfl, show boB 2 1 = PstarB from rfl,
    show boB 2 0 = PstarB from rfl, show boB 1 0 = PstarB from rfl, isAntiB]
  rfl

/- ===================== Claim C1 ===================== -/

/-- Claim C1, counterexample: on the three-carbon molecule whose bond order
makes every pair's two-body energy vanish, `compute_zpe_v2` returns a
`total_zpe` (the raw three-body term, strictly positive) that differs from
`sum(two_body) + sum(three_body_decomp)` (zero) by far more than the
claimed 1e-9 relative tolerance. -/
theorem C1_counterexample :
    ¬ (|totalV2 3 atomsC3 boC distC -
          (matSum 3 (twoBodyV2 3 atomsC3 boC distC) +
            matSum 3 (threeBodyDecompV2 3 atomsC3 boC distC))| ≤
        1 / 1000000000 * |totalV2 3 atomsC3 boC distC|) := by
  rw [matSumTwoC, matSumDecompC]
  intro h
  have hT := totalC_pos
  rw [add_zero, sub_zero, abs_of_pos hT] at h
  nlinarith

/-- Claim C1, amended: for every molecule, `total_zpe` equals
`sum(two_body) + sum(three_body_decomp)` exactly - unconditionally for
Model 1, and for Model 2 provided every triplet passing the three-body
parameter check has a nonzero sum of associated two-body energies (in the
degenerate case the zero-denominator division breaks the identity). -/
theorem C1_total_equals_matrix_sums (n : ℕ) (atoms : Fin n → ℕ)
    (bo dist : Fin n → Fin n → ℚ)
    (hnd : NoDegenerateTriplet n atoms bo dist) :
    totalV1 n atoms bo =
      matSum n (twoBodyV1 n atoms bo) + matSum n (threeBodyDecompV1 n) ∧
    totalV2 n atoms bo dist =
      matSum n (twoBodyV2 n atoms bo dist) +
        matSum n (threeBodyDecompV2 n atoms bo dist) := by
  constructor
  · unfold totalV1 threeBodyDecompV1 matSum
    simp
  · unfold totalV2
    rw [decompSum_eq_threeBodyTotal n atoms bo dist hnd]

/-- Witness for `C1_total_equals_matrix_sums` at the H₂ molecule (no
triplets exist, so the non-degeneracy hypothesis holds vacuously). -/
theorem C1_total_equals_matrix_sums_witness :
    NoDegenerateTriplet 2 atomsH2 boH2 distH2 ∧
    (totalV1 2 atomsH2 boH2 =
        matSum 2 (twoBodyV1 2 atomsH2 boH2) + matSum 2 (threeBodyDecompV1 2) ∧
      totalV2 2 atomsH2 boH2 distH2 =
        matSum 2 (twoBodyV2 2 atomsH2 boH2 distH2) +
          matSum 2 (threeBodyDecompV2 2 atomsH2 boH2 distH2)) := by
  have hnd : NoDegenerateTriplet 2 atomsH2 boH2 distH2 := by
    intro i j k hk hj _
    exfalso
    have h1 : k.val < j.val := hk
    have h2 : j.val < i.val := hj
    have h3 : i.val < 2 := i.is_lt
    omega
  exact ⟨hnd, C1_total_equals_matrix_sums 2 atomsH2 boH2 distH2 hnd⟩

/- ===================== Claim C2 ===================== -/

/-- Claim C2, counterexample: on the three-boron molecule whose bond order
makes every pair's two-body energy vanish, the triplet (2,1,0) passes the
three-body guard yet has `sum_two = 0`, so the proportional decomposition
performs a division whose denominator is zero - the degenerate case is not
guarded. -/
theorem C2_counterexample : performsZeroDivision 3 atomsB3 boB distB :=
  ⟨2, 1, 0, by decide, by decide, qualifiesB, sumTwoB_zero⟩

/-- Claim C2, amended: the degenerate case is not guarded - there are
inputs on which the Model-2 proportional decomposition performs a division
whose denominator is zero (in IEEE arithmetic, NaN enters the returned
`three_body_decomp`). -/
theorem C2_division_unguarded :
    ∃ bo dist : Fin 3 → Fin 3 → ℚ, performsZeroDivision 3 atomsB3 bo dist :=
  ⟨boB, distB, 2, 1, 0, by decide, by decide, qualifiesB, sumTwoB_zero⟩

/- ===================== Claim C3 ===================== -/

theorem harmonicV2_eq_spec (n a b : ℕ) (p : ℚ) :
    harmonicV2 n a b p =
      ((if p < 0 ∧ 2 < n then tbl BETA_ANTI a b else tbl BETA_BOND a b).map
        fun c => 2 * c * |p|).getD 0 := by
  unfold harmonicV2
  have hiff : (isAnti n p = true) ↔ (p < 0 ∧ 2 < n) := by
    unfold isAnti
    rw [Bool.and_eq_true, decide_eq_true_eq, decide_eq_true_eq]
  by_cases hb : p < 0 ∧ 2 < n
  · rw [if_pos (hiff.2 hb), if_pos hb]
    cases tbl BETA_ANTI a b <;> rfl
  · rw [if_neg (fun hh => hb (hiff.1 hh)), if_neg hb]
    cases tbl BETA_BOND a b <;> rfl

theorem anharmV2_eq_spec (a b : ℕ) (r : ℚ) :
    anharmV2 a b r =
      (if (tbl PRE_EXP a b).isSome ∧ (tbl ZETA a b).isSome ∧ (tbl R_PARAM a b).isSome then
        (((tbl PRE_EXP a b).getD 0 : ℚ) : ℝ) *
          Real.exp (-(((tbl ZETA a b).getD 0 : ℚ) : ℝ) *
            ((r : ℝ) - (((tbl R_PARAM a b).getD 0 : ℚ) : ℝ)))
      else 0) := by
  unfold anharmV2
  rcases hA : tbl PRE_EXP a b with _ | A
  · simp [hA]
  · rcases hZ : tbl ZETA a b with _ | Z
    · simp [hA, hZ]
    · rcases hR : tbl R_PARAM a b with _ | R
      · simp [hA, hZ, hR]
      · simp [hA, hZ, hR]

/-- Claim C3: for every pair `i > j`, the Model-2 entry `two_body[i, j]`
equals `E_h + E_a` with the branch, harmonic, anharmonic and
undefined-lookup rules exactly as the specification states them
(`TwoBodySpecV2` is written from the spec). -/
theorem C3_two_body_formula (n : ℕ) (atoms : Fin n → ℕ)
    (bo dist : Fin n → Fin n → ℚ) (i j : Fin n) (hji : j < i) :
    twoBodyV2 n atoms bo dist i j =
      TwoBodySpecV2 n (atoms i) (atoms j) (bo i j) (dist i j) := by
  unfold twoBodyV2 TwoBodySpecV2
  rw [if_pos hji, harmonicV2_eq_spec, anharmV2_eq_spec]

/-- Witness for `C3_two_body_formula`: the B-N diatomic with negative bond
order (the branch exception: a 2-atom molecule never takes the antibonding
table). -/
theorem C3_two_body_formula_witness :
    (0 : Fin 2) < 1 ∧
    twoBodyV2 2 atomsBN boBN (fun _ _ => 1) 1 0 =
      TwoBodySpecV2 2 (atomsBN 1) (atomsBN 0) (boBN 1 0) 1 :=
  ⟨by decide, C3_two_body_formula 2 atomsBN boBN (fun _ _ => 1) 1 0 (by decide)⟩

/- ===================== Claim C4 ===================== -/

theorem cosClamped_eq_cosineSpec (x y z : ℚ) :
    cosClamped x y z = cosineSpec x y z := by
  unfold cosClamped cosineSpec
  generalize (y ^ 2 + z ^ 2 - x ^ 2) / (2 * y * z) = d
  simp only [min_def, max_def]
  split_ifs <;> linarith

/-- Claim C4: a triplet `i > j > k` contributes a three-body term iff all
three pairs have a defined three-body coupling coefficient (`HAS_KAPPA`;
the secondary NaN check never fires because the bonding and antibonding κ
tables have the same support), and a contributing triplet's energy is
`(κ_ij·κ_ik·κ_jk) · (2|P_ij|·2|P_ik|·2|P_jk|) · (cos_ij·cos_ik·cos_jk)`
with each cosine given by the clamped law of cosines (`cosineSpec` is
written from the spec). -/
theorem C4_three_body_rule (n : ℕ) (atoms : Fin n → ℕ)
    (bo dist : Fin n → Fin n → ℚ) (i j k : Fin n) (_hk : k < j) (_hj : j < i) :
    (tripletQualifies n atoms bo i j k = true ↔
      (HAS_KAPPA (atoms i) (atoms j) = true ∧ HAS_KAPPA (atoms i) (atoms k) = true ∧
        HAS_KAPPA (atoms j) (atoms k) = true)) ∧
    (tripletQualifies n atoms bo i j k = true →
      ∃ κij κik κjk : ℚ,
        kappaV2 n (atoms i) (atoms j) (bo i j) = some κij ∧
        kappaV2 n (atoms i) (atoms k) (bo i k) = some κik ∧
        kappaV2 n (atoms j) (atoms k) (bo j k) = some κjk ∧
        tripletValue n atoms bo dist i j k =
          (κij * κik * κjk) *
            (2 * |bo i j| * (2 * |bo i k|) * (2 * |bo j k|)) *
            (cosineSpec (dist i j) (dist i k) (dist j k) *
              cosineSpec (dist i k) (dist i j) (dist j k) *
              cosineSpec (dist j k) (dist i j) (dist i k))) := by
  constructor
  · rw [tripletQualifies_eq_hasKappa]
    simp [Bool.and_eq_true, and_assoc]
  · intro h
    have hks : (HAS_KAPPA (atoms i) (atoms j) && HAS_KAPPA (atoms i) (atoms k) &&
        HAS_KAPPA (atoms j) (atoms k)) = true := by
      rw [← tripletQualifies_eq_hasKappa]
      exact h
    rw [Bool.and_eq_true, Bool.and_eq_true] at hks
    obtain ⟨⟨hk1, hk2⟩, hk3⟩ := hks
    obtain ⟨κij, hκ1⟩ := Option.isSome_iff_exists.1 (kappaV2_isSome n _ _ (bo i j) hk1)
    obtain ⟨κik, hκ2⟩ := Option.isSome_iff_exists.1 (kappaV2_isSome n _ _ (bo i k) hk2)
    obtain ⟨κjk, hκ3⟩ := Option.isSome_iff_exists.1 (kappaV2_isSome n _ _ (bo j k) hk3)
    refine ⟨κij, κik, κjk, hκ1, hκ2, hκ3, ?_⟩
    unfold tripletValue
    rw [hκ1, hκ2, hκ3, h]
    show (κij * κik * κjk) * (2 * |bo i j| * (2 * |bo i k|) * (2 * |bo j k|)) *
        cosProd (dist i j) (dist i k) (dist j k) = _
    unfold cosProd
    rw [cosClamped_eq_cosineSpec, cosClamped_eq_cosineSpec, cosClamped_eq_cosineSpec]

/-- Witness for `C4_three_body_rule`: three carbons at unit distance with
unit bond orders form a qualifying triplet. -/
theorem C4_three_body_rule_witness :
    ((0 : Fin 3) < 1 ∧ (1 : Fin 3) < 2) ∧
    ((tripletQualifies 3 atomsC3 (fun _ _ => 1) 2 1 0 = true ↔
      (HAS_KAPPA (atomsC3 2) (atomsC3 1) = true ∧
        HAS_KAPPA (atomsC3 2) (atomsC3 0) = true ∧
        HAS_KAPPA (atomsC3 1) (atomsC3 0) = true)) ∧
    (tripletQualifies 3 atomsC3 (fun _ _ => 1) 2 1 0 = true →
      ∃ κij κik κjk : ℚ,
        kappaV2 3 (atomsC3 2) (atomsC3 1) 1 = some κij ∧
        kappaV2 3 (atomsC3 2) (atomsC3 0) 1 = some κik ∧
        kappaV2 3 (atomsC3 1) (atomsC3 0) 1 = some κjk ∧
        tripletValue 3 atomsC3 (fun _ _ => 1) (fun _ _ => 1) 2 1 0 =
          (κij * κik * κjk) * (2 * |(1 : ℚ)| * (2 * |(1 : ℚ)|) * (2 * |(1 : ℚ)|)) *
            (cosineSpec 1 1 1 * cosineSpec 1 1 1 * cosineSpec 1 1 1))) :=
  ⟨⟨by decide, by decide⟩,
    C4_three_body_rule 3 atomsC3 (fun _ _ => 1) (fun _ _ => 1) 2 1 0 (by decide) (by decide)⟩

/- ===================== Claim C5 ===================== -/

/-- Claim C5: Model 1 returns an identically zero `three_body_decomp`; for
every pair `i > j` the `two_body` entry is `2·β_signed·P` with the signed
coefficient as the specification states it (`TwoBodySpecV1` is written from
the spec: bonding coefficient for `P ≥ 0`, negated antibonding coefficient
for `P < 0`, 0 when undefined); the total is the sum of `two_body`. -/
theorem C5_model1_formula (n : ℕ) (atoms : Fin n → ℕ) (bo : Fin n → Fin n → ℚ)
    (i j : Fin n) (hji : j < i) :
    threeBodyDecompV1 n i j = 0 ∧
    twoBodyV1 n atoms bo i j = TwoBodySpecV1 (atoms i) (atoms j) (bo i j) ∧
    totalV1 n atoms bo = matSum n (twoBodyV1 n atoms bo) := by
  refine ⟨rfl, ?_, rfl⟩
  unfold twoBodyV1
  rw [if_pos hji]
  unfold energyV1 betaSignedV1 TwoBodySpecV1
  by_cases hp : 0 ≤ bo i j
  · rw [if_pos hp, if_pos hp]
    cases tbl BETA_V1_BOND (atoms i) (atoms j) <;> rfl
  · rw [if_neg hp, if_neg hp]
    cases tbl BETA_V1_ANTI (atoms i) (atoms j) <;> rfl

/-- Witness for `C5_model1_formula` at the B-N diatomic with `P = -1/2`. -/
theorem C5_model1_formula_witness :
    (0 : Fin 2) < 1 ∧
    (threeBodyDecompV1 2 1 0 = 0 ∧
      twoBodyV1 2 atomsBN boBN 1 0 = TwoBodySpecV1 (atomsBN 1) (atomsBN 0) (boBN 1 0) ∧
      totalV1 2 atomsBN boBN = matSum 2 (twoBodyV1 2 atomsBN boBN)) :=
  ⟨by decide, C5_model1_formula 2 atomsBN boBN 1 0 (by decide)⟩

/- ===================== Claim C6 ===================== -/

/-- Claim C6, counterexample: in Model 1 the B-N pair (antibonding table
entry `-21.887535`, a negative value) with bond order `-1/2` contributes
`2·(-(-21.887535))·(-1/2) = -21.887535 < 0`: a defined table entry whose
per-pair contribution is negative. -/
theorem C6_counterexample : twoBodyV1 2 atomsBN boBN 1 0 < 0 := by
  have hbs : betaSignedV1 (atomsBN 1) (atomsBN 0) (boBN 1 0) = some (-(-21.887535)) := by
    unfold betaSignedV1
    rw [show boBN 1 0 = -(1 / 2) from rfl, if_neg (by norm_num : ¬ (0 : ℚ) ≤ -(1 / 2))]
    rfl
  unfold twoBodyV1
  rw [if_pos (by decide : (0 : Fin 2) < 1)]
  unfold energyV1
  rw [hbs, show boBN 1 0 = -(1 / 2) from rfl]
  norm_num

/-- Claim C6, amended: a Model-1 pair contribution is non-negative whenever
the table entry the branch selects is non-negative (the antibonding tables
contain negative entries, e.g. B-N and B-Si, for which the sign convention
yields a negative contribution). -/
theorem C6_nonneg_of_nonneg_entry (n : ℕ) (atoms : Fin n → ℕ)
    (bo : Fin n → Fin n → ℚ) (i j : Fin n) (hji : j < i)
    (hmag : 0 ≤ (if 0 ≤ bo i j then tbl BETA_V1_BOND (atoms i) (atoms j)
        else tbl BETA_V1_ANTI (atoms i) (atoms j)).getD 0) :
    0 ≤ twoBodyV1 n atoms bo i j := by
  unfold twoBodyV1
  rw [if_pos hji]
  unfold energyV1 betaSignedV1
  by_cases hp : 0 ≤ bo i j
  · rw [if_pos hp] at hmag ⊢
    cases htb : tbl BETA_V1_BOND (atoms i) (atoms j) with
    | none => exact le_refl 0
    | some β =>
      rw [htb, Option.getD_some] at hmag
      show 0 ≤ 2 * β * bo i j
      exact mul_nonneg (mul_nonneg (by norm_num) hmag) hp
  · rw [if_neg hp] at hmag ⊢
    cases htb : tbl BETA_V1_ANTI (atoms i) (atoms j) with
    | none => exact le_refl 0
    | some β =>
      rw [htb, Option.getD_some] at hmag
      show 0 ≤ 2 * -β * bo i j
      nlinarith [lt_of_not_le hp]

/-- Witness for `C6_nonneg_of_nonneg_entry` at the H₂ pair (bonding entry
`7.887796 ≥ 0`). -/
theorem C6_nonneg_of_nonneg_entry_witness :
    ((0 : Fin 2) < 1 ∧
      0 ≤ (if 0 ≤ boH2 1 0 then tbl BETA_V1_BOND (atomsH2 1) (atomsH2 0)
          else tbl BETA_V1_ANTI (atomsH2 1) (atomsH2 0)).getD 0) ∧
    0 ≤ twoBodyV1 2 atomsH2 boH2 1 0 := by
  have hmag : 0 ≤ (if 0 ≤ boH2 1 0 then tbl BETA_V1_BOND (atomsH2 1) (atomsH2 0)
      else tbl BETA_V1_ANTI (atomsH2 1) (atomsH2 0)).getD 0 := by
    rw [show boH2 1 0 = 1 / 2 from rfl, if_pos (by norm_num : (0 : ℚ) ≤ 1 / 2),
      show tbl BETA_V1_BOND (atomsH2 1) (atomsH2 0) = some 7.887796 from rfl,
      Option.getD_some]
    norm_num
  exact ⟨⟨by decide, hmag⟩, C6_nonneg_of_nonneg_entry 2 atomsH2 boH2 1 0 (by decide) hmag⟩

/- ===================== Isotope-correction lemmas ===================== -/

theorem massOf_pos (a : ℕ) (h : a < 18) : 0 < massOf a := by
  have hall : ∀ q ∈ ATOMIC_MASSES, 0 < q := by
    intro q hq
    fin_cases hq <;> norm_num
  unfold massOf
  cases hg : ATOMIC_MASSES.get? a with
  | none =>
    exfalso
    rw [List.get?_eq_none] at hg
    have hlen : ATOMIC_MASSES.length = 18 := rfl
    omega
  | some q =>
    simp only [Option.getD_some]
    exact hall q (List.get?_mem hg)

theorem corrFactor_untouched (n : ℕ) (atoms : Fin n → ℕ) (iso : List (ℕ × ℚ))
    (hmass : ∀ i : Fin n, atoms i < 18) (i j : Fin n)
    (hi : iso.lookup (i.val + 1) = none) (hj : iso.lookup (j.val + 1) = none) :
    corrFactor n atoms iso i j = 1 := by
  unfold corrFactor
  split
  · have h1 : isoMass iso (i.val + 1) (massOf (atoms i)) = massOf (atoms i) := by
      unfold isoMass
      rw [hi]
      rfl
    have h2 : isoMass iso (j.val + 1) (massOf (atoms j)) = massOf (atoms j) := by
      unfold isoMass
      rw [hj]
      rfl
    rw [h1, h2]
    have hμ : 0 < redMass (massOf (atoms i)) (massOf (atoms j)) := by
      unfold redMass
      have hpi := massOf_pos (atoms i) (hmass i)
      have hpj := massOf_pos (atoms j) (hmass j)
      positivity
    rw [div_self (ne_of_gt hμ)]
    norm_num
  · rfl

theorem matSum_cast (n : ℕ) (f : Fin n → Fin n → ℚ) :
    matSum n (fun i j => ((f i j : ℚ) : ℝ)) = ((matSum n f : ℚ) : ℝ) := by
  unfold matSum
  push_cast
  rfl

/- ===================== Claim C7 ===================== -/

/-- Claim C7, counterexample: on the degenerate three-carbon molecule,
`compute_zpe_isotope({})` succeeds but its `total_zpe`
(`sum(two_body) + sum(three_body_decomp)`, which is 0 here) differs from
the `total_zpe` of `compute_zpe()` (the raw three-body term, positive). -/
theorem C7_counterexample :
    computeZpeIsotope ZModel.zpebop2 3 atomsC3 boC distC [] =
      Except.ok (isoResult ZModel.zpebop2 3 atomsC3 boC distC []) ∧
    (isoResult ZModel.zpebop2 3 atomsC3 boC distC []).total_zpe ≠
      (isoResult ZModel.zpebop2 3 atomsC3 boC distC []).total_zpe_normal := by
  refine ⟨rfl, ?_⟩
  show matSum 3 (fun i j => engineTwoBody ZModel.zpebop2 3 atomsC3 boC distC i j *
        corrFactor 3 atomsC3 [] i j) +
      matSum 3 (fun i j => engineDecomp ZModel.zpebop2 3 atomsC3 boC distC i j *
        corrFactor 3 atomsC3 [] i j) ≠
    engineTotal ZModel.zpebop2 3 atomsC3 boC distC
  have h1 : matSum 3 (fun i j => engineTwoBody ZModel.zpebop2 3 atomsC3 boC distC i j *
      corrFactor 3 atomsC3 [] i j) = 0 := by
    unfold matSum
    refine Finset.sum_eq_zero fun i _ => Finset.sum_eq_zero fun j _ => ?_
    show twoBodyV2 3 atomsC3 boC distC i j * corrFactor 3 atomsC3 [] i j = 0
    rw [twoBodyC_zero, zero_mul]
  have h2 : matSum 3 (fun i j => engineDecomp ZModel.zpebop2 3 atomsC3 boC distC i j *
      corrFactor 3 atomsC3 [] i j) = 0 := by
    unfold matSum
    refine Finset.sum_eq_zero fun i _ => Finset.sum_eq_zero fun j _ => ?_
    show threeBodyDecompV2 3 atomsC3 boC distC i j * corrFactor 3 atomsC3 [] i j = 0
    rw [decompC_zero, zero_mul]
  rw [h1, h2, add_zero]
  show (0 : ℝ) ≠ totalV2 3 atomsC3 boC distC
  exact ne_of_lt totalC_pos

/-- Claim C7, amended: with an empty isotope mapping the correction is the
identity on the matrices (every factor is 1, `two_body` and
`three_body_decomp` are unchanged) and the isotope `total_zpe` equals
`sum(two_body) + sum(three_body_decomp)`; it equals the `total_zpe` of
`compute_zpe()` unconditionally for Model 1, and for Model 2 whenever no
processed triplet has a zero two-body sum (the degenerate case is the only
exception). -/
theorem C7_empty_isotopes_identity (m : ZModel) (n : ℕ) (atoms : Fin n → ℕ)
    (bo dist : Fin n → Fin n → ℚ) (hmass : ∀ i : Fin n, atoms i < 18) :
    computeZpeIsotope m n atoms bo dist [] =
      Except.ok (isoResult m n atoms bo dist []) ∧
    (∀ i j : Fin n, (isoResult m n atoms bo dist []).correction_factors i j = 1) ∧
    (∀ i j : Fin n, (isoResult m n atoms bo dist []).two_body i j =
      engineTwoBody m n atoms bo dist i j) ∧
    (∀ i j : Fin n, (isoResult m n atoms bo dist []).three_body_decomp i j =
      engineDecomp m n atoms bo dist i j) ∧
    (isoResult m n atoms bo dist []).total_zpe =
      matSum n (engineTwoBody m n atoms bo dist) +
        matSum n (engineDecomp m n atoms bo dist) ∧
    (m = ZModel.zpebop1 →
      (isoResult m n atoms bo dist []).total_zpe =
        (isoResult m n atoms bo dist []).total_zpe_normal) ∧
    (NoDegenerateTriplet n atoms bo dist →
      (isoResult m n atoms bo dist []).total_zpe =
        (isoResult m n atoms bo dist []).total_zpe_normal) := by
  have hc1 : ∀ i j : Fin n, corrFactor n atoms [] i j = 1 := fun i j =>
    corrFactor_untouched n atoms [] hmass i j rfl rfl
  have htwo : ∀ i j : Fin n, (isoResult m n atoms bo dist []).two_body i j =
      engineTwoBody m n atoms bo dist i j := by
    intro i j
    show engineTwoBody m n atoms bo dist i j * corrFactor n atoms [] i j = _
    rw [hc1, mul_one]
  have hdec : ∀ i j : Fin n, (isoResult m n atoms bo dist []).three_body_decomp i j =
      engineDecomp m n atoms bo dist i j := by
    intro i j
    show engineDecomp m n atoms bo dist i j * corrFactor n atoms [] i j = _
    rw [hc1, mul_one]
  have htot : (isoResult m n atoms bo dist []).total_zpe =
      matSum n (engineTwoBody m n atoms bo dist) +
        matSum n (engineDecomp m n atoms bo dist) := by
    show matSum n (fun i j => engineTwoBody m n atoms bo dist i j *
          corrFactor n atoms [] i j) +
        matSum n (fun i j => engineDecomp m n atoms bo dist i j *
          corrFactor n atoms [] i j) = _
    congr 1
    · unfold matSum
      exact Finset.sum_congr rfl fun i _ => Finset.sum_congr rfl fun j _ => htwo i j
    · unfold matSum
      exact Finset.sum_congr rfl fun i _ => Finset.sum_congr rfl fun j _ => hdec i j
  have hv1 : m = ZModel.zpebop1 →
      (isoResult m n atoms bo dist []).total_zpe =
        (isoResult m n atoms bo dist []).total_zpe_normal := by
    intro hm
    subst hm
    rw [htot]
    show _ = engineTotal ZModel.zpebop1 n atoms bo dist
    have hz : matSum n (engineDecomp ZModel.zpebop1 n atoms bo dist) = 0 := by
      unfold matSum
      refine Finset.sum_eq_zero fun i _ => Finset.sum_eq_zero fun j _ => ?_
      show ((threeBodyDecompV1 n i j : ℚ) : ℝ) = 0
      simp [threeBodyDecompV1]
    rw [hz, add_zero]
    show matSum n (fun i j => ((twoBodyV1 n atoms bo i j : ℚ) : ℝ)) =
      ((totalV1 n atoms bo : ℚ) : ℝ)
    rw [matSum_cast]
    rfl
  refine ⟨rfl, hc1, htwo, hdec, htot, hv1, ?_⟩
  intro hnd
  cases m with
  | zpebop1 => exact hv1 rfl
  | zpebop2 =>
    rw [htot]
    show matSum n (twoBodyV2 n atoms bo dist) +
        matSum n (threeBodyDecompV2 n atoms bo dist) =
      totalV2 n atoms bo dist
    rw [decompSum_eq_threeBodyTotal n atoms bo dist hnd]
    rfl

/-- Witness for `C7_empty_isotopes_identity` at the H₂ molecule. -/
theorem C7_empty_isotopes_identity_witness :
    (∀ i : Fin 2, atomsH2 i < 18) ∧
    (computeZpeIsotope ZModel.zpebop2 2 atomsH2 boH2 distH2 [] =
        Except.ok (isoResult ZModel.zpebop2 2 atomsH2 boH2 distH2 []) ∧
      (∀ i j : Fin 2,
        (isoResult ZModel.zpebop2 2 atomsH2 boH2 distH2 []).correction_factors i j = 1) ∧
      (∀ i j : Fin 2, (isoResult ZModel.zpebop2 2 atomsH2 boH2 distH2 []).two_body i j =
        engineTwoBody ZModel.zpebop2 2 atomsH2 boH2 distH2 i j) ∧
      (∀ i j : Fin 2,
        (isoResult ZModel.zpebop2 2 atomsH2 boH2 distH2 []).three_body_decomp i j =
          engineDecomp ZModel.zpebop2 2 atomsH2 boH2 distH2 i j) ∧
      (isoResult ZModel.zpebop2 2 atomsH2 boH2 distH2 []).total_zpe =
        matSum 2 (engineTwoBody ZModel.zpebop2 2 atomsH2 boH2 distH2) +
          matSum 2 (engineDecomp ZModel.zpebop2 2 atomsH2 boH2 distH2) ∧
      (ZModel.zpebop2 = ZModel.zpebop1 →
        (isoResult ZModel.zpebop2 2 atomsH2 boH2 distH2 []).total_zpe =
          (isoResult ZModel.zpebop2 2 atomsH2 boH2 distH2 []).total_zpe_normal) ∧
      (NoDegenerateTriplet 2 atomsH2 boH2 distH2 →
        (isoResult ZModel.zpebop2 2 atomsH2 boH2 distH2 []).total_zpe =
          (isoResult ZModel.zpebop2 2 atomsH2 boH2 distH2 []).total_zpe_normal)) :=
  ⟨by decide, C7_empty_isotopes_identity ZModel.zpebop2 2 atomsH2 boH2 distH2 (by decide)⟩

/- ===================== Claim C8 ===================== -/

/-- Claim C8: `compute_zpe_isotope` fails with the validation error exactly
when the isotope mapping references an atom number outside `[1, N]`; the
check is the eager guard of the `Except` (the energy computation occurs
only in the `ok` branch); when every referenced atom number is in range the
call succeeds. -/
theorem C8_validation (m : ZModel) (n : ℕ) (atoms : Fin n → ℕ)
    (bo dist : Fin n → Fin n → ℚ) (iso : List (ℕ × ℚ)) :
    ((∃ kv ∈ iso, kv.1 < 1 ∨ n < kv.1) →
      computeZpeIsotope m n atoms bo dist iso =
        Except.error "Invalid atom number: must be between 1 and n_atoms.") ∧
    ((∀ kv ∈ iso, 1 ≤ kv.1 ∧ kv.1 ≤ n) →
      computeZpeIsotope m n atoms bo dist iso =
        Except.ok (isoResult m n atoms bo dist iso)) := by
  have hb : (iso.any (fun kv => decide (kv.1 < 1) || decide (n < kv.1)) = true) ↔
      (∃ kv ∈ iso, kv.1 < 1 ∨ n < kv.1) := by
    simp [List.any_eq_true]
  constructor
  · intro h
    unfold computeZpeIsotope
    rw [if_pos (hb.2 h)]
  · intro hall
    unfold computeZpeIsotope
    rw [if_neg fun hx => ?_]
    obtain ⟨kv, hmem, hout⟩ := hb.1 hx
    obtain ⟨h1, h2⟩ := hall kv hmem
    omega

/-- Witness for `C8_validation`: on the 2-atom molecule, the mapping
referencing atom 5 is rejected with the validation error. -/
theorem C8_validation_witness :
    (∃ kv ∈ [((5 : ℕ), (2.014102 : ℚ))], kv.1 < 1 ∨ 2 < kv.1) ∧
    computeZpeIsotope ZModel.zpebop2 2 atomsH2 boH2 distH2
        [((5 : ℕ), (2.014102 : ℚ))] =
      Except.error "Invalid atom number: must be between 1 and n_atoms." := by
  have h : ∃ kv ∈ [((5 : ℕ), (2.014102 : ℚ))], kv.1 < 1 ∨ 2 < kv.1 :=
    ⟨(5, 2.014102), List.mem_singleton.2 rfl, Or.inr (by norm_num)⟩
  exact ⟨h, (C8_validation ZModel.zpebop2 2 atomsH2 boH2 distH2
    [((5 : ℕ), (2.014102 : ℚ))]).1 h⟩

/- ===================== Claim C10 ===================== -/

/-- Claim C10: the isotope correction only touches bonds involving a
substituted atom - for a pair `i > j` with neither 1-indexed atom number in
the mapping the factor is exactly 1 and both corrected matrix entries equal
the normal ones; the diagonal and upper triangle of `correction_factors`
are all exactly 1. -/
theorem C10_untouched_pairs (m : ZModel) (n : ℕ) (atoms : Fin n → ℕ)
    (bo dist : Fin n → Fin n → ℚ) (iso : List (ℕ × ℚ))
    (hmass : ∀ i : Fin n, atoms i < 18) (i j : Fin n) :
    (j < i → iso.lookup (i.val + 1) = none → iso.lookup (j.val + 1) = none →
      corrFactor n atoms iso i j = 1 ∧
      (isoResult m n atoms bo dist iso).two_body i j =
        engineTwoBody m n atoms bo dist i j ∧
      (isoResult m n atoms bo dist iso).three_body_decomp i j =
        engineDecomp m n atoms bo dist i j) ∧
    (¬ j < i → corrFactor n atoms iso i j = 1) := by
  constructor
  · intro _ hi hj
    have hc : corrFactor n atoms iso i j = 1 :=
      corrFactor_untouched n atoms iso hmass i j hi hj
    refine ⟨hc, ?_, ?_⟩
    · show engineTwoBody m n atoms bo dist i j * corrFactor n atoms iso i j = _
      rw [hc, mul_one]
    · show engineDecomp m n atoms bo dist i j * corrFactor n atoms iso i j = _
      rw [hc, mul_one]
  · intro hji
    unfold corrFactor
    rw [if_neg hji]

/-- Witness for `C10_untouched_pairs`: in H₃ with deuterium substituted at
atom 3, the pair of atoms 2 and 1 is untouched. -/
theorem C10_untouched_pairs_witness :
    ((∀ i : Fin 3, atomsH3 i < 18) ∧ (0 : Fin 3) < 1 ∧
      List.lookup ((1 : Fin 3).val + 1) [((3 : ℕ), (2.014102 : ℚ))] = none ∧
      List.lookup ((0 : Fin 3).val + 1) [((3 : ℕ), (2.014102 : ℚ))] = none) ∧
    (corrFactor 3 atomsH3 [((3 : ℕ), (2.014102 : ℚ))] 1 0 = 1 ∧
      (isoResult ZModel.zpebop2 3 atomsH3 boH3 distH3
          [((3 : ℕ), (2.014102 : ℚ))]).two_body 1 0 =
        engineTwoBody ZModel.zpebop2 3 atomsH3 boH3 distH3 1 0 ∧
      (isoResult ZModel.zpebop2 3 atomsH3 boH3 distH3
          [((3 : ℕ), (2.014102 : ℚ))]).three_body_decomp 1 0 =
        engineDecomp ZModel.zpebop2 3 atomsH3 boH3 distH3 1 0) :=
  ⟨⟨by decide, by decide, rfl, rfl⟩,
    (C10_untouched_pairs ZModel.zpebop2 3 atomsH3 boH3 distH3
      [((3 : ℕ), (2.014102 : ℚ))] (by decide) 1 0).1 (by decide) rfl rfl⟩

/- ===================== Claim C9 ===================== -/

theorem lastMarkerLine_eq_none (l : List GLine) (hm : GLine.marker ∉ l) :
    lastMarkerLine l = none := by
  induction l with
  | nil => rfl
  | cons x t ih =>
    unfold lastMarkerLine
    rw [ih (fun h => hm (List.mem_cons_of_mem x h))]
    exact if_neg (fun h : x = GLine.marker => by
      subst h
      exact hm (List.mem_cons_self _ _))

theorem lastMarkerLine_cons_marker (rest : List GLine) (hm : GLine.marker ∉ rest) :
    lastMarkerLine (GLine.marker :: rest) = some 0 := by
  unfold lastMarkerLine
  rw [lastMarkerLine_eq_none rest hm]
  exact if_pos rfl

theorem lastMarkerLine_append (pre l : List GLine) (i : ℕ)
    (h : lastMarkerLine l = some i) :
    lastMarkerLine (pre ++ l) = some (pre.length + i) := by
  induction pre with
  | nil =>
    rw [List.nil_append, h, List.length_nil, Nat.zero_add]
  | cons x t ih =>
    show lastMarkerLine (x :: (t ++ l)) = _
    unfold lastMarkerLine
    rw [ih]
    show some (t.length + i + 1) = some ((x :: t).length + i)
    rw [List.length_cons]
    congr 1
    omega

theorem drop_length_add (pre l : List GLine) (k : ℕ) :
    (pre ++ l).drop (pre.length + k) = l.drop k := by
  induction pre with
  | nil => simp
  | cons x t ih =>
    show (x :: (t ++ l)).drop (t.length + 1 + k) = l.drop k
    rw [show t.length + 1 + k = t.length + k + 1 from by omega, List.drop_succ_cons]
    exact ih

/-- Claim C9: the parser takes coordinates from the *last* occurrence of
the `Standard orientation:` marker - for any document that ends with a
marker line followed by the 4 header lines and the final geometry block,
the returned coordinates are scanned from that final block, whatever
earlier geometry blocks (and markers) the prefix contains. -/
theorem C9_last_geometry_block (pre rest : List GLine) (nAtoms : ℕ)
    (hm : GLine.marker ∉ rest) :
    parseCoordsDoc (pre ++ GLine.marker :: rest) nAtoms =
      some (scanCoords nAtoms (rest.drop 4)) := by
  unfold parseCoordsDoc
  rw [lastMarkerLine_append pre (GLine.marker :: rest) 0
    (lastMarkerLine_cons_marker rest hm)]
  have hd : (pre ++ GLine.marker :: rest).drop (pre.length + 0 + 5) = rest.drop 4 := by
    rw [Nat.add_zero, drop_length_add pre (GLine.marker :: rest) 5]
    rfl
  show some (scanCoords nAtoms ((pre ++ GLine.marker :: rest).drop (pre.length + 0 + 5))) =
    some (scanCoords nAtoms (rest.drop 4))
  rw [hd]

/-- Witness for `C9_last_geometry_block`: a document with two geometry
blocks; the parsed coordinates come from the second (final) block. -/
theorem C9_last_geometry_block_witness :
    GLine.marker ∉ ([GLine.other, GLine.other, GLine.other, GLine.other,
        GLine.coordData 4 5 6, GLine.dashes] : List GLine) ∧
    parseCoordsDoc
        ([GLine.marker, GLine.other, GLine.other, GLine.other, GLine.other,
          GLine.coordData 1 2 3, GLine.dashes] ++
          GLine.marker :: [GLine.other, GLine.other, GLine.other, GLine.other,
            GLine.coordData 4 5 6, GLine.dashes]) 1 =
      some (scanCoords 1 (([GLine.other, GLine.other, GLine.other, GLine.other,
        GLine.coordData 4 5 6, GLine.dashes] : List GLine).drop 4)) :=
  ⟨by decide, C9_last_geometry_block _ _ 1 (by decide)⟩
